import Mathlib

/-!
Shallow embedding of the rvemu-for-book RISC-V emulator core.

Machine integers (`u64`, `u32`, `u8`) are modelled as `Nat` with explicit
`% 2 ^ w` at the points where the Rust source performs wrapping arithmetic.
Fallible operations return `Except HostErr _`; the `HostErr.hostCrash`
variant models a Rust panic (out-of-bounds `Vec` indexing or a failed
`.expect`), which is distinct from a guest-visible `Exception` value.
-/

set_option maxRecDepth 10000
set_option linter.unusedVariables false

/-- Pointwise update of a function used to model in-place array/CSR writes. -/
def updateFn (f : Nat → Nat) (k v : Nat) : Nat → Nat :=
  fun i => if i = k then v else f i

/-- Mirrors `u64::wrapping_add`. -/
def wrapAdd (a b : Nat) : Nat := (a + b) % 2 ^ 64

/-- Mirrors `u64::wrapping_sub`. -/
def wrapSub (a b : Nat) : Nat := (a + (2 ^ 64 - b % 2 ^ 64)) % 2 ^ 64

/-- Mirrors `u64::wrapping_mul`. -/
def wrapMul (a b : Nat) : Nat := (a * b) % 2 ^ 64

/-- Mirrors `u64::wrapping_shl`: the shift amount is taken mod 64. -/
def wshl (a s : Nat) : Nat := (a <<< (s % 64)) % 2 ^ 64

/-- Mirrors `u64::wrapping_shr`: the shift amount is taken mod 64. -/
def wshr (a s : Nat) : Nat := a >>> (s % 64)

/-- Bitwise NOT on a `u64` value. -/
def not64 (a : Nat) : Nat := Nat.xor a (2 ^ 64 - 1)

/-- Bitwise NOT on a `u8` value. -/
def not8 (a : Nat) : Nat := Nat.xor a (2 ^ 8 - 1)

/-- Interpret the low `w` bits of `v` as a `w`-bit two's-complement integer. -/
def sext (w : Nat) (v : Nat) : Int :=
  let v' := v % 2 ^ w
  if v' < 2 ^ (w - 1) then (v' : Int) else (v' : Int) - ((2 ^ w : Nat) : Int)

/-- Cast an integer back to `u64` (two's complement). -/
def toU64 (x : Int) : Nat := (x.emod ((2 ^ 64 : Nat) : Int)).toNat

/-- Arithmetic (sign-preserving) right shift on integers. -/
def asr (x : Int) (n : Nat) : Int := Int.fdiv x ((2 ^ n : Nat) : Int)

/-- Exception taxonomy of `trap.rs`. -/
inductive Exception where
  | InstructionAddressMisaligned
  | InstructionAccessFault
  | IllegalInstruction
  | Breakpoint
  | LoadAddressMisaligned
  | LoadAccessFault
  | StoreAMOAddressMisaligned
  | StoreAMOAccessFault
  | EnvironmentCallFromUMode
  | EnvironmentCallFromSMode
  | EnvironmentCallFromMMode
  | InstructionPageFault
  | LoadPageFault
  | StoreAMOPageFault
  deriving DecidableEq, Repr

/-- Interrupt taxonomy of `trap.rs`. -/
inductive Interrupt where
  | UserSoftwareInterrupt
  | SupervisorSoftwareInterrupt
  | MachineSoftwareInterrupt
  | UserTimerInterrupt
  | SupervisorTimerInterrupt
  | MachineTimerInterrupt
  | UserExternalInterrupt
  | SupervisorExternalInterrupt
  | MachineExternalInterrupt
  deriving DecidableEq, Repr

/-- A host-side failure: either a guest-visible exception propagated as a Rust
`Err`, or a Rust panic (`hostCrash`). -/
inductive HostErr where
  | exc : Exception → HostErr
  | hostCrash : HostErr
  deriving DecidableEq, Repr

/-- Mirrors `Exception::exception_code`. -/
def Exception.exception_code : Exception → Nat
  | .InstructionAddressMisaligned => 0
  | .InstructionAccessFault => 1
  | .IllegalInstruction => 2
  | .Breakpoint => 3
  | .LoadAddressMisaligned => 4
  | .LoadAccessFault => 5
  | .StoreAMOAddressMisaligned => 6
  | .StoreAMOAccessFault => 7
  | .EnvironmentCallFromUMode => 8
  | .EnvironmentCallFromSMode => 9
  | .EnvironmentCallFromMMode => 11
  | .InstructionPageFault => 12
  | .LoadPageFault => 13
  | .StoreAMOPageFault => 15

/-- Mirrors `Exception::is_fatal`. -/
def Exception.is_fatal : Exception → Bool
  | .InstructionAddressMisaligned => true
  | .InstructionAccessFault => true
  | .LoadAccessFault => true
  | .StoreAMOAddressMisaligned => true
  | .StoreAMOAccessFault => true
  | _ => false

/-- Mirrors `Interrupt::exception_code`. -/
def Interrupt.exception_code : Interrupt → Nat
  | .UserSoftwareInterrupt => 0
  | .SupervisorSoftwareInterrupt => 1
  | .MachineSoftwareInterrupt => 3
  | .UserTimerInterrupt => 4
  | .SupervisorTimerInterrupt => 5
  | .MachineTimerInterrupt => 7
  | .UserExternalInterrupt => 8
  | .SupervisorExternalInterrupt => 9
  | .MachineExternalInterrupt => 11

/-- The privilege mode of `cpu.rs`. -/
inductive Mode where
  | User
  | Supervisor
  | Machine
  deriving DecidableEq, Repr

/-- Numeric encoding of a privilege mode (the Rust enum discriminants). -/
def Mode.code : Mode → Nat
  | .User => 0b00
  | .Supervisor => 0b01
  | .Machine => 0b11

/-- The derived `PartialOrd` ordering on `Mode` (declaration order). -/
def modeLe (a b : Mode) : Bool := a.code ≤ b.code

/-- Access type used by the Sv39 translation. -/
inductive AccessType where
  | Instruction
  | Load
  | Store
  deriving DecidableEq, Repr

/-- Page-fault exception corresponding to an access type. -/
def pageFault : AccessType → Exception
  | .Instruction => .InstructionPageFault
  | .Load => .LoadPageFault
  | .Store => .StoreAMOPageFault

-- Address map constants from bus.rs.
def CLINT_BASE : Nat := 0x2000000
def CLINT_SIZE : Nat := 0x10000
def PLIC_BASE : Nat := 0xc000000
def PLIC_SIZE : Nat := 0x4000000
def UART_BASE : Nat := 0x10000000
def UART_SIZE : Nat := 0x100
def VIRTIO_BASE : Nat := 0x10001000
def VIRTIO_SIZE : Nat := 0x1000
def DRAM_BASE : Nat := 0x80000000
def DRAM_SIZE : Nat := 1024 * 1024 * 128

def CLINT_MTIMECMP : Nat := CLINT_BASE + 0x4000
def CLINT_MTIME : Nat := CLINT_BASE + 0xbff8

def PLIC_PENDING : Nat := PLIC_BASE + 0x1000
def PLIC_SENABLE : Nat := PLIC_BASE + 0x2080
def PLIC_SPRIORITY : Nat := PLIC_BASE + 0x201000
def PLIC_SCLAIM : Nat := PLIC_BASE + 0x201004

def UART_IRQ : Nat := 10
def UART_RHR : Nat := UART_BASE + 0
def UART_THR : Nat := UART_BASE + 0
def UART_LCR : Nat := UART_BASE + 3
def UART_LSR : Nat := UART_BASE + 5
def UART_LSR_RX : Nat := 1
def UART_LSR_TX : Nat := 1 <<< 5

def VIRTIO_IRQ : Nat := 1
def VRING_DESC_SIZE : Nat := 16
def DESC_NUM : Nat := 8
def VIRTIO_MAGIC : Nat := VIRTIO_BASE + 0x000
def VIRTIO_VERSION : Nat := VIRTIO_BASE + 0x004
def VIRTIO_DEVICE_ID : Nat := VIRTIO_BASE + 0x008
def VIRTIO_VENDOR_ID : Nat := VIRTIO_BASE + 0x00c
def VIRTIO_DEVICE_FEATURES : Nat := VIRTIO_BASE + 0x010
def VIRTIO_DRIVER_FEATURES : Nat := VIRTIO_BASE + 0x020
def VIRTIO_GUEST_PAGE_SIZE : Nat := VIRTIO_BASE + 0x028
def VIRTIO_QUEUE_SEL : Nat := VIRTIO_BASE + 0x030
def VIRTIO_QUEUE_NUM_MAX : Nat := VIRTIO_BASE + 0x034
def VIRTIO_QUEUE_NUM : Nat := VIRTIO_BASE + 0x038
def VIRTIO_QUEUE_PFN : Nat := VIRTIO_BASE + 0x040
def VIRTIO_QUEUE_NOTIFY : Nat := VIRTIO_BASE + 0x050
def VIRTIO_STATUS : Nat := VIRTIO_BASE + 0x070

/-- The core-local interruptor of `clint.rs`. -/
structure Clint where
  mtime : Nat
  mtimecmp : Nat
  deriving Repr

def Clint.load64 (c : Clint) (addr : Nat) : Nat :=
  if addr = CLINT_MTIMECMP then c.mtimecmp
  else if addr = CLINT_MTIME then c.mtime
  else 0

def Clint.store64 (c : Clint) (addr value : Nat) : Clint :=
  if addr = CLINT_MTIMECMP then { c with mtimecmp := value }
  else if addr = CLINT_MTIME then { c with mtime := value }
  else c

def Clint.loadDev (c : Clint) (addr size : Nat) : Except Exception Nat :=
  if size = 64 then .ok (c.load64 addr) else .error .LoadAccessFault

def Clint.storeDev (c : Clint) (addr size value : Nat) : Except Exception Clint :=
  if size = 64 then .ok (c.store64 addr value) else .error .StoreAMOAccessFault

/-- The platform-level interrupt controller of `plic.rs`. -/
structure Plic where
  pending : Nat
  senable : Nat
  spriority : Nat
  sclaim : Nat
  deriving Repr

def Plic.load32 (p : Plic) (addr : Nat) : Nat :=
  if addr = PLIC_PENDING then p.pending
  else if addr = PLIC_SENABLE then p.senable
  else if addr = PLIC_SPRIORITY then p.spriority
  else if addr = PLIC_SCLAIM then p.sclaim
  else 0

def Plic.store32 (p : Plic) (addr value : Nat) : Plic :=
  if addr = PLIC_PENDING then { p with pending := value }
  else if addr = PLIC_SENABLE then { p with senable := value }
  else if addr = PLIC_SPRIORITY then { p with spriority := value }
  else if addr = PLIC_SCLAIM then { p with sclaim := value }
  else p

def Plic.loadDev (p : Plic) (addr size : Nat) : Except Exception Nat :=
  if size = 32 then .ok (p.load32 addr) else .error .LoadAccessFault

def Plic.storeDev (p : Plic) (addr size value : Nat) : Except Exception Plic :=
  if size = 32 then .ok (p.store32 addr value) else .error .StoreAMOAccessFault

/-- The UART of `uart.rs`; only the guest-visible state (the byte buffer
behind the mutex and the pending-interrupt flag) is modelled. The stdin
reader thread and the condition variable are external collaborators. -/
structure Uart where
  buf : Nat → Nat
  interrupting : Bool

/-- Mirrors `Uart::load8`: a read of RHR clears the RX-ready bit of LSR. -/
def Uart.load8 (u : Uart) (addr : Nat) : Nat × Uart :=
  if addr = UART_RHR then
    let cleared :=
      Nat.land (u.buf (UART_LSR - UART_BASE)) (not8 UART_LSR_RX)
    let u' : Uart := { u with buf := updateFn u.buf (UART_LSR - UART_BASE) cleared }
    (u'.buf (UART_RHR - UART_BASE), u')
  else (u.buf (addr - UART_BASE), u)

/-- Mirrors `Uart::store8`: a write to THR goes to stdout (not modelled). -/
def Uart.store8 (u : Uart) (addr value : Nat) : Uart :=
  if addr = UART_THR then u
  else { u with buf := updateFn u.buf (addr - UART_BASE) (value % 2 ^ 8) }

def Uart.loadDev (u : Uart) (addr size : Nat) : Except Exception (Nat × Uart) :=
  if size = 8 then .ok (u.load8 addr) else .error .LoadAccessFault

def Uart.storeDev (u : Uart) (addr size value : Nat) : Except Exception Uart :=
  if size = 8 then .ok (u.store8 addr value) else .error .StoreAMOAccessFault

/-- Mirrors `Uart::is_interrupting`: atomically reads and clears the pending flag. -/
def Uart.is_interrupting (u : Uart) : Bool × Uart :=
  (u.interrupting, { u with interrupting := false })

/-- The virtio block device of `virtio.rs`. `diskLen` is the length of the
`disk` vector; indexing at or beyond it is a Rust panic. -/
structure Virtio where
  id : Nat
  driver_features : Nat
  page_size : Nat
  queue_sel : Nat
  queue_num : Nat
  queue_pfn : Nat
  queue_notify : Nat
  status : Nat
  disk : Nat → Nat
  diskLen : Nat

/-- Mirrors `Virtio::is_interrupting`. -/
def Virtio.is_interrupting (v : Virtio) : Bool × Virtio :=
  if v.queue_notify ≠ 9999 then (true, { v with queue_notify := 9999 })
  else (false, v)

def Virtio.load32 (v : Virtio) (addr : Nat) : Nat :=
  if addr = VIRTIO_MAGIC then 0x74726976
  else if addr = VIRTIO_VERSION then 0x1
  else if addr = VIRTIO_DEVICE_ID then 0x2
  else if addr = VIRTIO_VENDOR_ID then 0x554d4551
  else if addr = VIRTIO_DEVICE_FEATURES then 0
  else if addr = VIRTIO_DRIVER_FEATURES then v.driver_features
  else if addr = VIRTIO_QUEUE_NUM_MAX then 8
  else if addr = VIRTIO_QUEUE_PFN then v.queue_pfn
  else if addr = VIRTIO_STATUS then v.status
  else 0

def Virtio.store32 (v : Virtio) (addr value : Nat) : Virtio :=
  let val := value % 2 ^ 32
  if addr = VIRTIO_DEVICE_FEATURES then { v with driver_features := val }
  else if addr = VIRTIO_GUEST_PAGE_SIZE then { v with page_size := val }
  else if addr = VIRTIO_QUEUE_SEL then { v with queue_sel := val }
  else if addr = VIRTIO_QUEUE_NUM then { v with queue_num := val }
  else if addr = VIRTIO_QUEUE_PFN then { v with queue_pfn := val }
  else if addr = VIRTIO_QUEUE_NOTIFY then { v with queue_notify := val }
  else if addr = VIRTIO_STATUS then { v with status := val }
  else v

def Virtio.loadDev (v : Virtio) (addr size : Nat) : Except Exception Nat :=
  if size = 32 then .ok (v.load32 addr) else .error .LoadAccessFault

def Virtio.storeDev (v : Virtio) (addr size value : Nat) : Except Exception Virtio :=
  if size = 32 then .ok (v.store32 addr value) else .error .StoreAMOAccessFault

/-- Mirrors `Virtio::get_new_id`. -/
def Virtio.get_new_id (v : Virtio) : Nat × Virtio :=
  let id' := wrapAdd v.id 1
  (id', { v with id := id' })

/-- Mirrors `Virtio::desc_addr`. -/
def Virtio.desc_addr (v : Virtio) : Nat := v.queue_pfn * v.page_size

/-- Mirrors `Virtio::read_disk`; out-of-bounds indexing panics. -/
def Virtio.read_disk (v : Virtio) (addr : Nat) : Except HostErr Nat :=
  if addr < v.diskLen then .ok (v.disk addr) else .error .hostCrash

/-- Mirrors `Virtio::write_disk`; out-of-bounds indexing panics. -/
def Virtio.write_disk (v : Virtio) (addr value : Nat) : Except HostErr Virtio :=
  if addr < v.diskLen then .ok { v with disk := updateFn v.disk addr (value % 2 ^ 8) }
  else .error .hostCrash

/-- The DRAM of `dram.rs`: a byte vector of length `DRAM_SIZE`. -/
structure Dram where
  mem : Nat → Nat

def Dram.load8 (d : Dram) (addr : Nat) : Except HostErr Nat :=
  let index := wrapSub addr DRAM_BASE
  if index < DRAM_SIZE then .ok (d.mem index) else .error .hostCrash

def Dram.load16 (d : Dram) (addr : Nat) : Except HostErr Nat :=
  let index := wrapSub addr DRAM_BASE
  if index + 1 < DRAM_SIZE then
    .ok (Nat.lor (d.mem index) (d.mem (index + 1) <<< 8))
  else .error .hostCrash

def Dram.load32 (d : Dram) (addr : Nat) : Except HostErr Nat :=
  let index := wrapSub addr DRAM_BASE
  if index + 3 < DRAM_SIZE then
    .ok (Nat.lor (Nat.lor (d.mem index) (d.mem (index + 1) <<< 8))
      (Nat.lor (d.mem (index + 2) <<< 16) (d.mem (index + 3) <<< 24)))
  else .error .hostCrash

def Dram.load64 (d : Dram) (addr : Nat) : Except HostErr Nat :=
  let index := wrapSub addr DRAM_BASE
  if index + 7 < DRAM_SIZE then
    .ok (Nat.lor
      (Nat.lor (Nat.lor (d.mem index) (d.mem (index + 1) <<< 8))
        (Nat.lor (d.mem (index + 2) <<< 16) (d.mem (index + 3) <<< 24)))
      (Nat.lor (Nat.lor (d.mem (index + 4) <<< 32) (d.mem (index + 5) <<< 40))
        (Nat.lor (d.mem (index + 6) <<< 48) (d.mem (index + 7) <<< 56))))
  else .error .hostCrash

def Dram.store8 (d : Dram) (addr value : Nat) : Except HostErr Dram :=
  let index := wrapSub addr DRAM_BASE
  if index < DRAM_SIZE then .ok { d with mem := updateFn d.mem index (value % 2 ^ 8) }
  else .error .hostCrash

def Dram.store16 (d : Dram) (addr value : Nat) : Except HostErr Dram :=
  let index := wrapSub addr DRAM_BASE
  if index + 1 < DRAM_SIZE then
    let mem' :=
      updateFn (updateFn d.mem index (Nat.land value 0xff))
        (index + 1) (Nat.land (value >>> 8) 0xff)
    .ok { d with mem := mem' }
  else .error .hostCrash

def Dram.store32 (d : Dram) (addr value : Nat) : Except HostErr Dram :=
  let index := wrapSub addr DRAM_BASE
  if index + 3 < DRAM_SIZE then
    let mem' :=
      updateFn (updateFn (updateFn (updateFn d.mem
        index (Nat.land value 0xff))
        (index + 1) (Nat.land (value >>> 8) 0xff))
        (index + 2) (Nat.land (value >>> 16) 0xff))
        (index + 3) (Nat.land (value >>> 24) 0xff)
    .ok { d with mem := mem' }
  else .error .hostCrash

def Dram.store64 (d : Dram) (addr value : Nat) : Except HostErr Dram :=
  let index := wrapSub addr DRAM_BASE
  if index + 7 < DRAM_SIZE then
    let mem' :=
      updateFn (updateFn (updateFn (updateFn
      (updateFn (updateFn (updateFn (updateFn d.mem
        index (Nat.land value 0xff))
        (index + 1) (Nat.land (value >>> 8) 0xff))
        (index + 2) (Nat.land (value >>> 16) 0xff))
        (index + 3) (Nat.land (value >>> 24) 0xff))
        (index + 4) (Nat.land (value >>> 32) 0xff))
        (index + 5) (Nat.land (value >>> 40) 0xff))
        (index + 6) (Nat.land (value >>> 48) 0xff))
        (index + 7) (Nat.land (value >>> 56) 0xff)
    .ok { d with mem := mem' }
  else .error .hostCrash

def Dram.loadDev (d : Dram) (addr size : Nat) : Except HostErr Nat :=
  if size = 8 then d.load8 addr
  else if size = 16 then d.load16 addr
  else if size = 32 then d.load32 addr
  else if size = 64 then d.load64 addr
  else .error (.exc .LoadAccessFault)

def Dram.storeDev (d : Dram) (addr size value : Nat) : Except HostErr Dram :=
  if size = 8 then d.store8 addr value
  else if size = 16 then d.store16 addr value
  else if size = 32 then d.store32 addr value
  else if size = 64 then d.store64 addr value
  else .error (.exc .StoreAMOAccessFault)

/-- The system bus of `bus.rs`. -/
structure Bus where
  clint : Clint
  plic : Plic
  uart : Uart
  virtio : Virtio
  dram : Dram

/-- Mirrors `Bus::load`. The DRAM arm is guarded only from below (`DRAM_BASE <= addr`),
exactly as in the source. -/
def Bus.load (b : Bus) (addr size : Nat) : Except HostErr (Nat × Bus) :=
  if CLINT_BASE ≤ addr ∧ addr < CLINT_BASE + CLINT_SIZE then
    match b.clint.loadDev addr size with
    | .ok v => .ok (v, b)
    | .error e => .error (.exc e)
  else if PLIC_BASE ≤ addr ∧ addr < PLIC_BASE + PLIC_SIZE then
    match b.plic.loadDev addr size with
    | .ok v => .ok (v, b)
    | .error e => .error (.exc e)
  else if UART_BASE ≤ addr ∧ addr < UART_BASE + UART_SIZE then
    match b.uart.loadDev addr size with
    | .ok (v, u') => .ok (v, { b with uart := u' })
    | .error e => .error (.exc e)
  else if VIRTIO_BASE ≤ addr ∧ addr < VIRTIO_BASE + VIRTIO_SIZE then
    match b.virtio.loadDev addr size with
    | .ok v => .ok (v, b)
    | .error e => .error (.exc e)
  else if DRAM_BASE ≤ addr then
    match b.dram.loadDev addr size with
    | .ok v => .ok (v, b)
    | .error e => .error e
  else .error (.exc .LoadAccessFault)

/-- Mirrors `Bus::store`. -/
def Bus.store (b : Bus) (addr size value : Nat) : Except HostErr Bus :=
  if CLINT_BASE ≤ addr ∧ addr < CLINT_BASE + CLINT_SIZE then
    match b.clint.storeDev addr size value with
    | .ok c' => .ok { b with clint := c' }
    | .error e => .error (.exc e)
  else if PLIC_BASE ≤ addr ∧ addr < PLIC_BASE + PLIC_SIZE then
    match b.plic.storeDev addr size value with
    | .ok p' => .ok { b with plic := p' }
    | .error e => .error (.exc e)
  else if UART_BASE ≤ addr ∧ addr < UART_BASE + UART_SIZE then
    match b.uart.storeDev addr size value with
    | .ok u' => .ok { b with uart := u' }
    | .error e => .error (.exc e)
  else if VIRTIO_BASE ≤ addr ∧ addr < VIRTIO_BASE + VIRTIO_SIZE then
    match b.virtio.storeDev addr size value with
    | .ok v' => .ok { b with virtio := v' }
    | .error e => .error (.exc e)
  else if DRAM_BASE ≤ addr then
    match b.dram.storeDev addr size value with
    | .ok d' => .ok { b with dram := d' }
    | .error e => .error e
  else .error (.exc .StoreAMOAccessFault)

-- CSR addresses from cpu.rs.
def MSTATUS : Nat := 0x300
def MEDELEG : Nat := 0x302
def MIDELEG : Nat := 0x303
def MIE : Nat := 0x304
def MTVEC : Nat := 0x305
def MEPC : Nat := 0x341
def MCAUSE : Nat := 0x342
def MTVAL : Nat := 0x343
def MIP : Nat := 0x344

def MIP_SSIP : Nat := 1 <<< 1
def MIP_MSIP : Nat := 1 <<< 3
def MIP_STIP : Nat := 1 <<< 5
def MIP_MTIP : Nat := 1 <<< 7
def MIP_SEIP : Nat := 1 <<< 9
def MIP_MEIP : Nat := 1 <<< 11

def SSTATUS : Nat := 0x100
def SIE : Nat := 0x104
def STVEC : Nat := 0x105
def SEPC : Nat := 0x141
def SCAUSE : Nat := 0x142
def STVAL : Nat := 0x143
def SIP : Nat := 0x144
def SATP : Nat := 0x180

def PAGE_SIZE : Nat := 4096

/-- The CPU state of `cpu.rs`. -/
structure Cpu where
  regs : Nat → Nat
  pc : Nat
  mode : Mode
  bus : Bus
  csrs : Nat → Nat
  enable_paging : Bool
  page_table : Nat

/-- Mirrors `Cpu::load_csr`: `sie` is a masked view of `mie`. -/
def Cpu.load_csr (c : Cpu) (addr : Nat) : Nat :=
  if addr = SIE then Nat.land (c.csrs MIE) (c.csrs MIDELEG)
  else c.csrs addr

/-- Mirrors `Cpu::store_csr`: a write to `sie` updates only the delegated bits of `mie`. -/
def Cpu.store_csr (c : Cpu) (addr value : Nat) : Cpu :=
  if addr = SIE then
    let mie' :=
      Nat.lor (Nat.land (c.csrs MIE) (not64 (c.csrs MIDELEG)))
        (Nat.land value (c.csrs MIDELEG))
    { c with csrs := updateFn c.csrs MIE mie' }
  else { c with csrs := updateFn c.csrs addr value }

/-- Mirrors `Cpu::update_paging`. -/
def Cpu.update_paging (c : Cpu) (csr_addr : Nat) : Cpu :=
  if csr_addr ≠ SATP then c
  else
    let c1 := { c with page_table := Nat.land (c.load_csr SATP) ((1 <<< 44) - 1) * PAGE_SIZE }
    let mode := c1.load_csr SATP >>> 60
    if mode = 8 then { c1 with enable_paging := true }
    else { c1 with enable_paging := false }

/-- The page-walk loop of `Cpu::translate`, recursing over the level `i`
(which takes the values 2, 1, 0). Returns the leaf PTE, the level at which
it was found and the threaded bus. -/
def translateLoop (vpn : Nat → Nat) (access_type : AccessType) :
    Bus → Nat → Nat → Except HostErr (Nat × Nat × Bus)
  | b, a, i =>
    match b.load (a + vpn i * 8) 64 with
    | .error e => .error e
    | .ok (pte, b') =>
      let v := Nat.land pte 1
      let r := Nat.land (pte >>> 1) 1
      let w := Nat.land (pte >>> 2) 1
      let x := Nat.land (pte >>> 3) 1
      if v = 0 ∨ (r = 0 ∧ w = 1) then .error (.exc (pageFault access_type))
      else if r = 1 ∨ x = 1 then .ok (pte, i, b')
      else
        let ppn := Nat.land (pte >>> 10) 0xfffffffffff
        match i with
        | 0 => .error (.exc (pageFault access_type))
        | i' + 1 => translateLoop vpn access_type b' (ppn * PAGE_SIZE) i'

/-- Mirrors `Cpu::translate`. -/
def Cpu.translate (c : Cpu) (addr : Nat) (access_type : AccessType) :
    Except HostErr (Nat × Cpu) :=
  if ¬ c.enable_paging then .ok (addr, c)
  else
    let vpn : Nat → Nat := fun i =>
      if i = 0 then Nat.land (addr >>> 12) 0x1ff
      else if i = 1 then Nat.land (addr >>> 21) 0x1ff
      else Nat.land (addr >>> 30) 0x1ff
    match translateLoop vpn access_type c.bus c.page_table 2 with
    | .error e => .error e
    | .ok (pte, i, b') =>
      let c' := { c with bus := b' }
      let offset := Nat.land addr 0xfff
      if i = 0 then
        let ppn := Nat.land (pte >>> 10) 0xfffffffffff
        .ok (Nat.lor (ppn <<< 12) offset, c')
      else if i = 1 then
        let pa := Nat.lor (Nat.lor (Nat.land (pte >>> 28) 0x3ffffff <<< 30)
          (Nat.land (pte >>> 19) 0x1ff <<< 21)) (Nat.lor (vpn 0 <<< 12) offset)
        .ok (pa, c')
      else if i = 2 then
        let pa := Nat.lor (Nat.lor (Nat.land (pte >>> 28) 0x3ffffff <<< 30)
          (vpn 1 <<< 21)) (Nat.lor (vpn 0 <<< 12) offset)
        .ok (pa, c')
      else .error (.exc (pageFault access_type))

/-- Mirrors `Cpu::load`. -/
def Cpu.load (c : Cpu) (addr size : Nat) : Except HostErr (Nat × Cpu) :=
  match c.translate addr .Load with
  | .error e => .error e
  | .ok (p_addr, c') =>
    match c'.bus.load p_addr size with
    | .error e => .error e
    | .ok (v, b') => .ok (v, { c' with bus := b' })

/-- Mirrors `Cpu::store`. -/
def Cpu.store (c : Cpu) (addr size value : Nat) : Except HostErr Cpu :=
  match c.translate addr .Store with
  | .error e => .error e
  | .ok (p_addr, c') =>
    match c'.bus.store p_addr size value with
    | .error e => .error e
    | .ok b' => .ok { c' with bus := b' }

/-- Mirrors `Cpu::fetch`: only the final 32-bit bus load is remapped to
`InstructionAccessFault`; a translation error propagates unchanged. -/
def Cpu.fetch (c : Cpu) : Except HostErr (Nat × Cpu) :=
  match c.translate c.pc .Instruction with
  | .error e => .error e
  | .ok (p_pc, c') =>
    match c'.bus.load p_pc 32 with
    | .ok (inst, b') => .ok (inst, { c' with bus := b' })
    | .error (.exc _) => .error (.exc .InstructionAccessFault)
    | .error .hostCrash => .error .hostCrash

-- Decode fields of cpu.rs::execute.
def opcodeOf (inst : Nat) : Nat := Nat.land inst 0x7f
def rdOf (inst : Nat) : Nat := Nat.land inst 0xf80 >>> 7
def rs1Of (inst : Nat) : Nat := Nat.land inst 0xf8000 >>> 15
def rs2Of (inst : Nat) : Nat := Nat.land inst 0x1f00000 >>> 20
def funct3Of (inst : Nat) : Nat := Nat.land inst 0x7000 >>> 12
def funct7Of (inst : Nat) : Nat := Nat.land inst 0xfe000000 >>> 25
def csrAddrOf (inst : Nat) : Nat := Nat.land inst 0xfff00000 >>> 20

/-- I-immediate `((inst as i32 as i64) >> 20) as u64` (loads and OP-IMM-32). -/
def iImm (inst : Nat) : Nat := toU64 (asr (sext 32 inst) 20)

/-- I-immediate `((inst & 0xfff00000) as i32 as i64 >> 20) as u64` (OP-IMM, jalr). -/
def opImm (inst : Nat) : Nat := toU64 (asr (sext 32 (Nat.land inst 0xfff00000)) 20)

/-- U-immediate `(inst & 0xfffff000) as i32 as i64 as u64` (auipc, lui). -/
def uImm (inst : Nat) : Nat := toU64 (sext 32 (Nat.land inst 0xfffff000))

/-- S-immediate (stores). -/
def sImm (inst : Nat) : Nat :=
  Nat.lor (toU64 (asr (sext 32 (Nat.land inst 0xfe000000)) 20))
    (Nat.land (inst >>> 7) 0x1f)

/-- B-immediate (branches). -/
def bImm (inst : Nat) : Nat :=
  Nat.lor (Nat.lor (toU64 (asr (sext 32 (Nat.land inst 0x80000000)) 19))
      (Nat.land inst 0x80 <<< 4))
    (Nat.lor (Nat.land (inst >>> 20) 0x7e0) (Nat.land (inst >>> 7) 0x1e))

/-- J-immediate (jal). -/
def jImm (inst : Nat) : Nat :=
  Nat.lor (Nat.lor (toU64 (asr (sext 32 (Nat.land inst 0x80000000)) 11))
      (Nat.land inst 0xff000))
    (Nat.lor (Nat.land (inst >>> 9) 0x800) (Nat.land (inst >>> 20) 0x7fe))

/-- Outcome of `Cpu::execute`: `Ok(())`, `Err(exception)` with the mutated
CPU retained by the caller, or a Rust panic. -/
inductive ExecOut where
  | ok : Cpu → ExecOut
  | err : Exception → Cpu → ExecOut
  | crash : ExecOut

/-- The `?` operator applied to a `Cpu::load` result inside `execute`. -/
def ExecOut.ofLoad (res : Except HostErr (Nat × Cpu)) (c : Cpu)
    (k : Nat → Cpu → ExecOut) : ExecOut :=
  match res with
  | .error (.exc e) => .err e c
  | .error .hostCrash => .crash
  | .ok (v, c') => k v c'

/-- The `?` operator applied to a `Cpu::store` result inside `execute`. -/
def ExecOut.ofStore (res : Except HostErr Cpu) (c : Cpu)
    (k : Cpu → ExecOut) : ExecOut :=
  match res with
  | .error (.exc e) => .err e c
  | .error .hostCrash => .crash
  | .ok c' => k c'

/-- Write a register (`self.regs[r] = v`). -/
def setReg (c : Cpu) (r v : Nat) : Cpu := { c with regs := updateFn c.regs r v }

/-- The opcode dispatch of `Cpu::execute`, applied to the state `s` in which
`self.regs[0] = 0` has already been performed (see `Cpu.execute`). -/
def executeMain (s : Cpu) (inst : Nat) : ExecOut :=
  let opcode := opcodeOf inst
  let rd := rdOf inst
  let rs1 := rs1Of inst
  let rs2 := rs2Of inst
  let funct3 := funct3Of inst
  let funct7 := funct7Of inst
  if opcode = 0x03 then
    let imm := iImm inst
    let addr := wrapAdd (s.regs rs1) imm
    if funct3 = 0x0 then
      ExecOut.ofLoad (s.load addr 8) s fun v s1 => .ok (setReg s1 rd (toU64 (sext 8 v)))
    else if funct3 = 0x1 then
      ExecOut.ofLoad (s.load addr 16) s fun v s1 => .ok (setReg s1 rd (toU64 (sext 16 v)))
    else if funct3 = 0x2 then
      ExecOut.ofLoad (s.load addr 32) s fun v s1 => .ok (setReg s1 rd (toU64 (sext 32 v)))
    else if funct3 = 0x3 then
      ExecOut.ofLoad (s.load addr 64) s fun v s1 => .ok (setReg s1 rd v)
    else if funct3 = 0x4 then
      ExecOut.ofLoad (s.load addr 8) s fun v s1 => .ok (setReg s1 rd v)
    else if funct3 = 0x5 then
      ExecOut.ofLoad (s.load addr 16) s fun v s1 => .ok (setReg s1 rd v)
    else if funct3 = 0x6 then
      ExecOut.ofLoad (s.load addr 32) s fun v s1 => .ok (setReg s1 rd v)
    else .err .IllegalInstruction s
  else if opcode = 0x0f then
    if funct3 = 0x0 then .ok s else .err .IllegalInstruction s
  else if opcode = 0x13 then
    let imm := opImm inst
    let shamt := Nat.land imm 0x3f
    if funct3 = 0x0 then .ok (setReg s rd (wrapAdd (s.regs rs1) imm))
    else if funct3 = 0x1 then .ok (setReg s rd ((s.regs rs1 <<< shamt) % 2 ^ 64))
    else if funct3 = 0x2 then
      .ok (setReg s rd (if sext 64 (s.regs rs1) < sext 64 imm then 1 else 0))
    else if funct3 = 0x3 then
      .ok (setReg s rd (if s.regs rs1 < imm then 1 else 0))
    else if funct3 = 0x4 then .ok (setReg s rd (Nat.xor (s.regs rs1) imm))
    else if funct3 = 0x5 then
      if funct7 >>> 1 = 0x00 then .ok (setReg s rd (wshr (s.regs rs1) shamt))
      else if funct7 >>> 1 = 0x10 then
        .ok (setReg s rd (toU64 (asr (sext 64 (s.regs rs1)) (shamt % 64))))
      else .ok s
    else if funct3 = 0x6 then .ok (setReg s rd (Nat.lor (s.regs rs1) imm))
    else if funct3 = 0x7 then .ok (setReg s rd (Nat.land (s.regs rs1) imm))
    else .ok s
  else if opcode = 0x17 then
    .ok (setReg s rd (wrapSub (wrapAdd s.pc (uImm inst)) 4))
  else if opcode = 0x1b then
    let imm := iImm inst
    let shamt := Nat.land imm 0x1f
    if funct3 = 0x0 then
      .ok (setReg s rd (toU64 (sext 32 (wrapAdd (s.regs rs1) imm))))
    else if funct3 = 0x1 then
      .ok (setReg s rd (toU64 (sext 32 (wshl (s.regs rs1) shamt))))
    else if funct3 = 0x5 then
      if funct7 = 0x00 then
        .ok (setReg s rd (toU64 (sext 32 (s.regs rs1 % 2 ^ 32 >>> (shamt % 32)))))
      else if funct7 = 0x20 then
        .ok (setReg s rd (toU64 (asr (sext 32 (s.regs rs1)) (shamt % 32))))
      else .err .IllegalInstruction s
    else .err .IllegalInstruction s
  else if opcode = 0x23 then
    let imm := sImm inst
    let addr := wrapAdd (s.regs rs1) imm
    if funct3 = 0x0 then ExecOut.ofStore (s.store addr 8 (s.regs rs2)) s fun s1 => .ok s1
    else if funct3 = 0x1 then ExecOut.ofStore (s.store addr 16 (s.regs rs2)) s fun s1 => .ok s1
    else if funct3 = 0x2 then ExecOut.ofStore (s.store addr 32 (s.regs rs2)) s fun s1 => .ok s1
    else if funct3 = 0x3 then ExecOut.ofStore (s.store addr 64 (s.regs rs2)) s fun s1 => .ok s1
    else .ok s
  else if opcode = 0x2f then
    let funct5 := Nat.land funct7 0b1111100 >>> 2
    if funct3 = 0x2 ∧ funct5 = 0x00 then
      ExecOut.ofLoad (s.load (s.regs rs1) 32) s fun t s1 =>
        ExecOut.ofStore (s1.store (s1.regs rs1) 32 (wrapAdd t (s1.regs rs2))) s1 fun s2 =>
          .ok (setReg s2 rd t)
    else if funct3 = 0x3 ∧ funct5 = 0x00 then
      ExecOut.ofLoad (s.load (s.regs rs1) 64) s fun t s1 =>
        ExecOut.ofStore (s1.store (s1.regs rs1) 64 (wrapAdd t (s1.regs rs2))) s1 fun s2 =>
          .ok (setReg s2 rd t)
    else if funct3 = 0x2 ∧ funct5 = 0x01 then
      ExecOut.ofLoad (s.load (s.regs rs1) 32) s fun t s1 =>
        ExecOut.ofStore (s1.store (s1.regs rs1) 32 (s1.regs rs2)) s1 fun s2 =>
          .ok (setReg s2 rd t)
    else if funct3 = 0x3 ∧ funct5 = 0x01 then
      ExecOut.ofLoad (s.load (s.regs rs1) 64) s fun t s1 =>
        ExecOut.ofStore (s1.store (s1.regs rs1) 64 (s1.regs rs2)) s1 fun s2 =>
          .ok (setReg s2 rd t)
    else .err .IllegalInstruction s
  else if opcode = 0x33 then
    let shamt := Nat.land (s.regs rs2) 0x3f
    if funct3 = 0x0 ∧ funct7 = 0x00 then
      .ok (setReg s rd (wrapAdd (s.regs rs1) (s.regs rs2)))
    else if funct3 = 0x0 ∧ funct7 = 0x01 then
      .ok (setReg s rd (wrapMul (s.regs rs1) (s.regs rs2)))
    else if funct3 = 0x0 ∧ funct7 = 0x20 then
      .ok (setReg s rd (wrapSub (s.regs rs1) (s.regs rs2)))
    else if funct3 = 0x1 ∧ funct7 = 0x00 then
      .ok (setReg s rd (wshl (s.regs rs1) shamt))
    else if funct3 = 0x2 ∧ funct7 = 0x00 then
      .ok (setReg s rd (if sext 64 (s.regs rs1) < sext 64 (s.regs rs2) then 1 else 0))
    else if funct3 = 0x3 ∧ funct7 = 0x00 then
      .ok (setReg s rd (if s.regs rs1 < s.regs rs2 then 1 else 0))
    else if funct3 = 0x4 ∧ funct7 = 0x00 then
      .ok (setReg s rd (Nat.xor (s.regs rs1) (s.regs rs2)))
    else if funct3 = 0x5 ∧ funct7 = 0x00 then
      .ok (setReg s rd (wshr (s.regs rs1) shamt))
    else if funct3 = 0x5 ∧ funct7 = 0x20 then
      .ok (setReg s rd (toU64 (asr (sext 64 (s.regs rs1)) (shamt % 64))))
    else if funct3 = 0x6 ∧ funct7 = 0x00 then
      .ok (setReg s rd (Nat.lor (s.regs rs1) (s.regs rs2)))
    else if funct3 = 0x7 ∧ funct7 = 0x00 then
      .ok (setReg s rd (Nat.land (s.regs rs1) (s.regs rs2)))
    else .err .IllegalInstruction s
  else if opcode = 0x37 then
    .ok (setReg s rd (uImm inst))
  else if opcode = 0x3b then
    let shamt := Nat.land (s.regs rs2) 0x1f
    if funct3 = 0x0 ∧ funct7 = 0x00 then
      .ok (setReg s rd (toU64 (sext 32 (wrapAdd (s.regs rs1) (s.regs rs2)))))
    else if funct3 = 0x0 ∧ funct7 = 0x20 then
      .ok (setReg s rd (toU64 (sext 32 (wrapSub (s.regs rs1) (s.regs rs2)))))
    else if funct3 = 0x1 ∧ funct7 = 0x00 then
      .ok (setReg s rd (toU64 (sext 32 ((s.regs rs1 % 2 ^ 32 <<< (shamt % 32)) % 2 ^ 32))))
    else if funct3 = 0x5 ∧ funct7 = 0x00 then
      .ok (setReg s rd (toU64 (sext 32 (s.regs rs1 % 2 ^ 32 >>> (shamt % 32)))))
    else if funct3 = 0x5 ∧ funct7 = 0x01 then
      .ok (setReg s rd (if s.regs rs2 = 0 then 0xffffffffffffffff
        else s.regs rs1 / s.regs rs2))
    else if funct3 = 0x5 ∧ funct7 = 0x20 then
      .ok (setReg s rd (toU64 (asr (sext 32 (s.regs rs1)) shamt)))
    else if funct3 = 0x7 ∧ funct7 = 0x01 then
      if s.regs rs2 = 0 then .ok (setReg s rd (s.regs rs1))
      else
        let divisor := s.regs rs2 % 2 ^ 32
        if divisor = 0 then .crash
        else .ok (setReg s rd (toU64 (sext 32 (s.regs rs1 % 2 ^ 32 % divisor))))
    else .err .IllegalInstruction s
  else if opcode = 0x63 then
    let imm := bImm inst
    if funct3 = 0x0 then
      if s.regs rs1 = s.regs rs2 then .ok { s with pc := wrapSub (wrapAdd s.pc imm) 4 }
      else .ok s
    else if funct3 = 0x1 then
      if s.regs rs1 ≠ s.regs rs2 then .ok { s with pc := wrapSub (wrapAdd s.pc imm) 4 }
      else .ok s
    else if funct3 = 0x4 then
      if sext 64 (s.regs rs1) < sext 64 (s.regs rs2) then
        .ok { s with pc := wrapSub (wrapAdd s.pc imm) 4 }
      else .ok s
    else if funct3 = 0x5 then
      if sext 64 (s.regs rs2) ≤ sext 64 (s.regs rs1) then
        .ok { s with pc := wrapSub (wrapAdd s.pc imm) 4 }
      else .ok s
    else if funct3 = 0x6 then
      if s.regs rs1 < s.regs rs2 then .ok { s with pc := wrapSub (wrapAdd s.pc imm) 4 }
      else .ok s
    else if funct3 = 0x7 then
      if s.regs rs2 ≤ s.regs rs1 then .ok { s with pc := wrapSub (wrapAdd s.pc imm) 4 }
      else .ok s
    else .err .IllegalInstruction s
  else if opcode = 0x67 then
    let t := s.pc
    let s1 := { s with pc := Nat.land (wrapAdd (s.regs rs1) (opImm inst)) (not64 1) }
    .ok (setReg s1 rd t)
  else if opcode = 0x6f then
    let s1 := setReg s rd s.pc
    .ok { s1 with pc := wrapSub (wrapAdd s1.pc (jImm inst)) 4 }
  else if opcode = 0x73 then
    let csr_addr := csrAddrOf inst
    if funct3 = 0x0 then
      if rs2 = 0x0 ∧ funct7 = 0x0 then
        match s.mode with
        | .User => .err .EnvironmentCallFromUMode s
        | .Supervisor => .err .EnvironmentCallFromSMode s
        | .Machine => .err .EnvironmentCallFromMMode s
      else if rs2 = 0x1 ∧ funct7 = 0x0 then .err .Breakpoint s
      else if rs2 = 0x2 ∧ funct7 = 0x8 then
        let s1 := { s with pc := s.load_csr SEPC }
        let newMode : Mode :=
          if Nat.land (s1.load_csr SSTATUS >>> 8) 1 = 1 then .Supervisor else .User
        let s2 := { s1 with mode := newMode }
        let s3 := s2.store_csr SSTATUS
          (if Nat.land (s2.load_csr SSTATUS >>> 5) 1 = 1 then
            Nat.lor (s2.load_csr SSTATUS) (1 <<< 1)
          else Nat.land (s2.load_csr SSTATUS) (not64 (1 <<< 1)))
        let s4 := s3.store_csr SSTATUS (Nat.lor (s3.load_csr SSTATUS) (1 <<< 5))
        let s5 := s4.store_csr SSTATUS (Nat.land (s4.load_csr SSTATUS) (not64 (1 <<< 8)))
        .ok s5
      else if rs2 = 0x2 ∧ funct7 = 0x18 then
        let s1 := { s with pc := s.load_csr MEPC }
        let mpp := Nat.land (s1.load_csr MSTATUS >>> 11) 0b11
        let newMode : Mode :=
          if mpp = 2 then .Machine else if mpp = 1 then .Supervisor else .User
        let s2 := { s1 with mode := newMode }
        let s3 := s2.store_csr MSTATUS
          (if Nat.land (s2.load_csr MSTATUS >>> 7) 1 = 1 then
            Nat.lor (s2.load_csr MSTATUS) (1 <<< 3)
          else Nat.land (s2.load_csr MSTATUS) (not64 (1 <<< 3)))
        let s4 := s3.store_csr MSTATUS (Nat.lor (s3.load_csr MSTATUS) (1 <<< 7))
        let s5 := s4.store_csr MSTATUS (Nat.land (s4.load_csr MSTATUS) (not64 (0b11 <<< 11)))
        .ok s5
      else if funct7 = 0x9 then .ok s
      else .err .IllegalInstruction s
    else if funct3 = 0x1 then
      let t := s.load_csr csr_addr
      let s1 := s.store_csr csr_addr (s.regs rs1)
      let s2 := setReg s1 rd t
      .ok (s2.update_paging csr_addr)
    else if funct3 = 0x2 then
      let t := s.load_csr csr_addr
      let s1 := s.store_csr csr_addr (Nat.lor t (s.regs rs1))
      let s2 := setReg s1 rd t
      .ok (s2.update_paging csr_addr)
    else if funct3 = 0x3 then
      let t := s.load_csr csr_addr
      let s1 := s.store_csr csr_addr (Nat.land t (not64 (s.regs rs1)))
      let s2 := setReg s1 rd t
      .ok (s2.update_paging csr_addr)
    else if funct3 = 0x5 then
      let zimm := rs1
      let s1 := setReg s rd (s.load_csr csr_addr)
      let s2 := s1.store_csr csr_addr zimm
      .ok (s2.update_paging csr_addr)
    else if funct3 = 0x6 then
      let zimm := rs1
      let t := s.load_csr csr_addr
      let s1 := s.store_csr csr_addr (Nat.lor t zimm)
      let s2 := setReg s1 rd t
      .ok (s2.update_paging csr_addr)
    else if funct3 = 0x7 then
      let zimm := rs1
      let t := s.load_csr csr_addr
      let s1 := s.store_csr csr_addr (Nat.land t (not64 zimm))
      let s2 := setReg s1 rd t
      .ok (s2.update_paging csr_addr)
    else .err .IllegalInstruction s
  else .err .IllegalInstruction s

/-- Mirrors `Cpu::execute`: register x0 is zeroed (`self.regs[0] = 0`) before the
opcode dispatch. -/
def Cpu.execute (c : Cpu) (inst : Nat) : ExecOut :=
  executeMain { c with regs := updateFn c.regs 0 0 } inst

/-- Mirrors `Trap::take_trap_helper` of `trap.rs`, parameterized by the cause code
and the interrupt flag. -/
def takeTrapHelper (code : Nat) (is_interrupt : Bool) (cpu : Cpu) : Cpu :=
  let exception_pc := wrapSub cpu.pc 4
  let previous_mode := cpu.mode
  let cause := if is_interrupt then Nat.lor (1 <<< 63) code else code
  if modeLe previous_mode Mode.Supervisor ∧
      Nat.land (wshr (cpu.load_csr MEDELEG) (cause % 2 ^ 32)) 1 ≠ 0 then
    let c1 := { cpu with mode := Mode.Supervisor }
    let c2 :=
      if is_interrupt then
        let vector := if Nat.land (c1.load_csr STVEC) 1 = 1 then 4 * cause else 0
        { c1 with pc := Nat.land (c1.load_csr STVEC) (not64 1) + vector }
      else { c1 with pc := Nat.land (c1.load_csr STVEC) (not64 1) }
    let c3 := c2.store_csr SEPC (Nat.land exception_pc (not64 1))
    let c4 := c3.store_csr SCAUSE cause
    let c5 := c4.store_csr STVAL 0
    let c6 := c5.store_csr SSTATUS
      (if Nat.land (c5.load_csr SSTATUS >>> 1) 1 = 1 then
        Nat.lor (c5.load_csr SSTATUS) (1 <<< 5)
      else Nat.land (c5.load_csr SSTATUS) (not64 (1 <<< 5)))
    let c7 := c6.store_csr SSTATUS (Nat.land (c6.load_csr SSTATUS) (not64 (1 <<< 1)))
    match previous_mode with
    | .User => c7.store_csr SSTATUS (Nat.land (c7.load_csr SSTATUS) (not64 (1 <<< 8)))
    | _ => c7.store_csr SSTATUS (Nat.lor (c7.load_csr SSTATUS) (1 <<< 8))
  else
    let c1 := { cpu with mode := Mode.Machine }
    let c2 :=
      if is_interrupt then
        let vector := if Nat.land (c1.load_csr MTVEC) 1 = 1 then 4 * cause else 0
        { c1 with pc := Nat.land (c1.load_csr MTVEC) (not64 1) + vector }
      else { c1 with pc := Nat.land (c1.load_csr MTVEC) (not64 1) }
    let c3 := c2.store_csr MEPC (Nat.land exception_pc (not64 1))
    let c4 := c3.store_csr MCAUSE cause
    let c5 := c4.store_csr MTVAL 0
    let c6 := c5.store_csr MSTATUS
      (if Nat.land (c5.load_csr MSTATUS >>> 3) 1 = 1 then
        Nat.lor (c5.load_csr MSTATUS) (1 <<< 7)
      else Nat.land (c5.load_csr MSTATUS) (not64 (1 <<< 7)))
    let c7 := c6.store_csr MSTATUS (Nat.land (c6.load_csr MSTATUS) (not64 (1 <<< 3)))
    c7.store_csr MSTATUS (Nat.land (c7.load_csr MSTATUS) (not64 (0b11 <<< 11)))

/-- Mirrors `<Exception as Trap>::take_trap`. -/
def Exception.take_trap (e : Exception) (cpu : Cpu) : Cpu :=
  takeTrapHelper e.exception_code false cpu

/-- Mirrors `<Interrupt as Trap>::take_trap`. -/
def Interrupt.take_trap (i : Interrupt) (cpu : Cpu) : Cpu :=
  takeTrapHelper i.exception_code true cpu

/-- The DRAM-to-disk transfer loop of `Virtio::disk_access` (the
`(flags1 & 2) == 0` arm); a failing bus access or disk index panics. -/
def diskWriteLoop (addr1 blk_sector : Nat) : Cpu → Nat → Nat → Except HostErr Cpu
  | cpu, _, 0 => .ok cpu
  | cpu, i, n + 1 =>
    match cpu.bus.load (addr1 + i) 8 with
    | .error _ => .error .hostCrash
    | .ok (data, b') =>
      match Virtio.write_disk b'.virtio (blk_sector * 512 + i) data with
      | .error _ => .error .hostCrash
      | .ok v' =>
        diskWriteLoop addr1 blk_sector { cpu with bus := { b' with virtio := v' } } (i + 1) n

/-- The disk-to-DRAM transfer loop of `Virtio::disk_access`. -/
def diskReadLoop (addr1 blk_sector : Nat) : Cpu → Nat → Nat → Except HostErr Cpu
  | cpu, _, 0 => .ok cpu
  | cpu, i, n + 1 =>
    match Virtio.read_disk cpu.bus.virtio (blk_sector * 512 + i) with
    | .error _ => .error .hostCrash
    | .ok data =>
      match cpu.bus.store (addr1 + i) 8 data with
      | .error _ => .error .hostCrash
      | .ok b' => diskReadLoop addr1 blk_sector { cpu with bus := b' } (i + 1) n

/-- Mirrors `Virtio::disk_access`. Every failing bus access is a panic (`.expect`). -/
def Virtio.disk_access (cpu : Cpu) : Except HostErr Cpu :=
  let desc_addr := cpu.bus.virtio.desc_addr
  let avail_addr := desc_addr + 0x40
  let used_addr := desc_addr + 4096
  match cpu.bus.load (wrapAdd avail_addr 1) 16 with
  | .error _ => .error .hostCrash
  | .ok (offset, b1) =>
  match b1.load (wrapAdd (wrapAdd avail_addr (offset % DESC_NUM)) 2) 16 with
  | .error _ => .error .hostCrash
  | .ok (index, b2) =>
  let desc_addr0 := desc_addr + VRING_DESC_SIZE * index
  match b2.load desc_addr0 64 with
  | .error _ => .error .hostCrash
  | .ok (addr0, b3) =>
  match b3.load (wrapAdd desc_addr0 14) 16 with
  | .error _ => .error .hostCrash
  | .ok (next0, b4) =>
  let desc_addr1 := desc_addr + VRING_DESC_SIZE * next0
  match b4.load desc_addr1 64 with
  | .error _ => .error .hostCrash
  | .ok (addr1, b5) =>
  match b5.load (wrapAdd desc_addr1 8) 32 with
  | .error _ => .error .hostCrash
  | .ok (len1, b6) =>
  match b6.load (wrapAdd desc_addr1 12) 16 with
  | .error _ => .error .hostCrash
  | .ok (flags1, b7) =>
  match b7.load (wrapAdd addr0 8) 64 with
  | .error _ => .error .hostCrash
  | .ok (blk_sector, b8) =>
  let cpu8 := { cpu with bus := b8 }
  let transfer :=
    if Nat.land flags1 2 = 0 then diskWriteLoop addr1 blk_sector cpu8 0 len1
    else diskReadLoop addr1 blk_sector cpu8 0 len1
  match transfer with
  | .error e => .error e
  | .ok cpu9 =>
  let (new_id, v') := cpu9.bus.virtio.get_new_id
  let bus2 := { cpu9.bus with virtio := v' }
  match bus2.store (wrapAdd used_addr 2) 16 (new_id % 8) with
  | .error _ => .error .hostCrash
  | .ok b' => .ok { cpu9 with bus := b' }

/-- Result of `Cpu::check_pending_interrupt`: the returned option plus the
mutated CPU, or a panic. -/
inductive IrqOut where
  | ret : Option Interrupt → Cpu → IrqOut
  | crash : IrqOut

/-- The MIP/MIE priority arbiter at the end of `check_pending_interrupt`. -/
def irqArbiter (c : Cpu) : IrqOut :=
  let pending := Nat.land (c.load_csr MIE) (c.load_csr MIP)
  if Nat.land pending MIP_MEIP ≠ 0 then
    .ret (some .MachineExternalInterrupt)
      (c.store_csr MIP (Nat.land (c.load_csr MIP) (not64 MIP_MEIP)))
  else if Nat.land pending MIP_MSIP ≠ 0 then
    .ret (some .MachineSoftwareInterrupt)
      (c.store_csr MIP (Nat.land (c.load_csr MIP) (not64 MIP_MSIP)))
  else if Nat.land pending MIP_MTIP ≠ 0 then
    .ret (some .MachineTimerInterrupt)
      (c.store_csr MIP (Nat.land (c.load_csr MIP) (not64 MIP_MTIP)))
  else if Nat.land pending MIP_SEIP ≠ 0 then
    .ret (some .SupervisorExternalInterrupt)
      (c.store_csr MIP (Nat.land (c.load_csr MIP) (not64 MIP_SEIP)))
  else if Nat.land pending MIP_SSIP ≠ 0 then
    .ret (some .SupervisorSoftwareInterrupt)
      (c.store_csr MIP (Nat.land (c.load_csr MIP) (not64 MIP_SSIP)))
  else if Nat.land pending MIP_STIP ≠ 0 then
    .ret (some .SupervisorTimerInterrupt)
      (c.store_csr MIP (Nat.land (c.load_csr MIP) (not64 MIP_STIP)))
  else .ret none c

/-- The IRQ-signalling step of `check_pending_interrupt` (PLIC claim write
plus MIP.SEIP), followed by the arbiter. -/
def signalIrq (c : Cpu) (irq : Nat) : IrqOut :=
  if irq ≠ 0 then
    match c.bus.store PLIC_SCLAIM 32 irq with
    | .error _ => .crash
    | .ok b' =>
      let c1 := { c with bus := b' }
      let c2 := c1.store_csr MIP (Nat.lor (c1.load_csr MIP) MIP_SEIP)
      irqArbiter c2
  else irqArbiter c

/-- Mirrors `Cpu::check_pending_interrupt`. -/
def Cpu.check_pending_interrupt (c : Cpu) : IrqOut :=
  if c.mode = Mode.Machine ∧ Nat.land (c.load_csr MSTATUS >>> 3) 1 = 0 then .ret none c
  else if c.mode = Mode.Supervisor ∧ Nat.land (c.load_csr SSTATUS >>> 1) 1 = 0 then
    .ret none c
  else
    let (uartInt, u') := c.bus.uart.is_interrupting
    let c1 := { c with bus := { c.bus with uart := u' } }
    if uartInt then signalIrq c1 UART_IRQ
    else
      let (vInt, v') := c1.bus.virtio.is_interrupting
      let c2 := { c1 with bus := { c1.bus with virtio := v' } }
      if vInt then
        match Virtio.disk_access c2 with
        | .error _ => IrqOut.crash
        | .ok c3 => signalIrq c3 VIRTIO_IRQ
      else signalIrq c2 0

/-- Outcome of one iteration of the run loop in `main.rs`. -/
inductive StepOut where
  | cont : Cpu → StepOut
  | brk : Cpu → StepOut
  | crash : StepOut

/-- The interrupt-polling tail of a run-loop iteration. -/
def loopIrq (c : Cpu) : StepOut :=
  match c.check_pending_interrupt with
  | .crash => .crash
  | .ret (some i) c' => .cont (i.take_trap c')
  | .ret none c' => .cont c'

/-- The part of a run-loop iteration after fetch: advance the pc, execute,
deliver an execute exception and break if it is fatal, poll interrupts. -/
def loopStepRest (c : Cpu) (inst : Nat) : StepOut :=
  let c1 := { c with pc := c.pc + 4 }
  match c1.execute inst with
  | .crash => .crash
  | .ok c2 => loopIrq c2
  | .err e c2 =>
    let c3 := e.take_trap c2
    if e.is_fatal then .brk c3 else loopIrq c3

/-- One iteration of the run loop of `main.rs` (the module version): when
fetch fails, the exception is discarded and instruction 0 is executed. -/
def loopStep (c : Cpu) : StepOut :=
  match c.fetch with
  | .error .hostCrash => .crash
  | .error (.exc _) => loopStepRest c 0
  | .ok (inst, c') => loopStepRest c' inst

/-- A freshly constructed UART (`Uart::new` sets the TX-empty LSR bit). -/
def uart0 : Uart :=
  { buf := fun i => if i = UART_LSR - UART_BASE then UART_LSR_TX else 0
    interrupting := false }

/-- A freshly constructed virtio device with an empty disk. -/
def virtio0 : Virtio :=
  { id := 0, driver_features := 0, page_size := 0, queue_sel := 0, queue_num := 0
    queue_pfn := 0, queue_notify := 9999, status := 0, disk := fun _ => 0, diskLen := 0 }

/-- A freshly constructed bus with zeroed DRAM. -/
def bus0 : Bus :=
  { clint := ⟨0, 0⟩, plic := ⟨0, 0, 0, 0⟩, uart := uart0, virtio := virtio0
    dram := ⟨fun _ => 0⟩ }

/-- Mirrors `Cpu::new` on an empty kernel image. -/
def cpu0 : Cpu :=
  { regs := fun r => if r = 2 then DRAM_BASE + DRAM_SIZE else 0
    pc := DRAM_BASE, mode := Mode.Machine, bus := bus0, csrs := fun _ => 0
    enable_paging := false, page_table := 0 }

/-- The CPU state used to exhibit the mret MPP decoding: mstatus holds
MPP = 3 (Machine) in bits 12:11, mepc holds 0x80000004. -/
def cpuMret : Cpu :=
  { cpu0 with csrs := fun a => if a = MSTATUS then 0x1800
      else if a = MEPC then 0x80000004 else 0 }

/-- A CPU with Sv39 paging enabled, page-table root 0 and pc 0: the first
PTE load of the walk targets physical address 0, which is unmapped. -/
def cpuPW : Cpu := { cpu0 with enable_paging := true, page_table := 0, pc := 0 }

/-- A CPU whose mie is 0xab and mideleg is 0x3c, used as the `sie` witness. -/
def cpuSie : Cpu :=
  { cpu0 with csrs := fun a => if a = MIE then 0xab else if a = MIDELEG then 0x3c else 0 }

/-- A supervisor-mode CPU with mtvec = 0x80000101, pc = 0x80000008 and all
delegation bits clear, used as the trap witness. -/
def cpuTrapS : Cpu :=
  { cpu0 with
    mode := Mode.Supervisor
    pc := 0x80000008
    csrs := fun a => if a = MTVEC then 0x80000101 else 0 }

/-- A CPU whose register x2 holds satp value `8 << 60` (Sv39 mode). -/
def cpuW7 : Cpu := { cpu0 with regs := fun r => if r = 2 then 8 <<< 60 else 0 }

/-- A CPU whose x1 (the AMO address register) is 0 and whose x3 holds 42. -/
def cpuW10 : Cpu := { cpu0 with regs := fun r => if r = 3 then 42 else 0 }

/-- A freshly constructed CPU whose pc is 0: fetch hits an unmapped address
and fails with the fatal `InstructionAccessFault`. -/
def cpuFF : Cpu := { cpu0 with pc := 0 }

/-- DRAM contents for the virtio counterexample: avail.idx = 0x500 (ring
offset 0), avail.ring[0] = 5 (head descriptor index), descriptor 5 points
at header 0x80001000 with next = 6, descriptor 6 describes one byte at
0x80002000 with flags = 0 (write to disk), sector = 0. -/
def memC8 : Nat → Nat := fun i =>
  if i = 0x42 then 5
  else if i = 0x51 then 0x10
  else if i = 0x53 then 0x80
  else if i = 0x5e then 6
  else if i = 0x61 then 0x20
  else if i = 0x63 then 0x80
  else if i = 0x68 then 1
  else 0

/-- A virtio device with page size 4096, queue at pfn 0x80000 (so the ring
lives at DRAM_BASE) and a 512-byte disk; the id counter is 0. -/
def virtioC8 : Virtio :=
  { virtio0 with page_size := 4096, queue_pfn := 0x80000, diskLen := 512 }

/-- The CPU used for the virtio used-ring counterexample. -/
def cpuC8 : Cpu :=
  { cpu0 with bus := { bus0 with virtio := virtioC8, dram := ⟨memC8⟩ } }

/-- C3 amended, part of the bus proof: outside every device range and below
`DRAM_BASE`, a load faults with `LoadAccessFault` and a store with
`StoreAMOAccessFault`, for every access size. Addresses at or above
`DRAM_BASE` are instead routed to the DRAM without an upper bound check. -/
theorem bus_unmapped_below_dram_faults (b : Bus) (addr size value : Nat)
    (h1 : ¬ (CLINT_BASE ≤ addr ∧ addr < CLINT_BASE + CLINT_SIZE))
    (h2 : ¬ (PLIC_BASE ≤ addr ∧ addr < PLIC_BASE + PLIC_SIZE))
    (h3 : ¬ (UART_BASE ≤ addr ∧ addr < UART_BASE + UART_SIZE))
    (h4 : ¬ (VIRTIO_BASE ≤ addr ∧ addr < VIRTIO_BASE + VIRTIO_SIZE))
    (h5 : addr < DRAM_BASE) :
    Bus.load b addr size = .error (.exc .LoadAccessFault) ∧
    Bus.store b addr size value = .error (.exc .StoreAMOAccessFault) := by
  have hd : ¬ DRAM_BASE ≤ addr := not_le.mpr h5
  constructor
  · unfold Bus.load
    rw [if_neg h1, if_neg h2, if_neg h3, if_neg h4, if_neg hd]
  · unfold Bus.store
    rw [if_neg h1, if_neg h2, if_neg h3, if_neg h4, if_neg hd]

/-- Witness for `bus_unmapped_below_dram_faults` at the concrete unmapped
address 0x3000 with size 8. -/
theorem bus_unmapped_below_dram_faults_witness :
    Bus.load bus0 0x3000 8 = .error (.exc .LoadAccessFault) ∧
    Bus.store bus0 0x3000 8 0 = .error (.exc .StoreAMOAccessFault) :=
  bus_unmapped_below_dram_faults bus0 0x3000 8 0 (by decide) (by decide) (by decide)
    (by decide) (by decide)

/-- C3 counterexample: at `DRAM_BASE + DRAM_SIZE` (the first address past the
128 MiB of DRAM, outside every device range) the bus does not return an
access fault: the access is routed to the DRAM and panics on the
out-of-bounds `Vec` index. -/
theorem bus_above_dram_no_fault :
    Bus.load bus0 (DRAM_BASE + DRAM_SIZE) 8 = .error .hostCrash ∧
    Bus.load bus0 (DRAM_BASE + DRAM_SIZE) 8 ≠ .error (.exc .LoadAccessFault) ∧
    Bus.store bus0 (DRAM_BASE + DRAM_SIZE) 8 0 = .error .hostCrash ∧
    Bus.store bus0 (DRAM_BASE + DRAM_SIZE) 8 0 ≠ .error (.exc .StoreAMOAccessFault) := by
  have hl : Bus.load bus0 (DRAM_BASE + DRAM_SIZE) 8 = .error .hostCrash := rfl
  have hs : Bus.store bus0 (DRAM_BASE + DRAM_SIZE) 8 0 = .error .hostCrash := rfl
  refine ⟨hl, ?_, hs, ?_⟩
  · rw [hl]
    intro h
    injection h with h2
    cases h2
  · rw [hs]
    intro h
    injection h with h2
    cases h2

/-- C1: executing `mret` (0x30200073) in a state whose MSTATUS.MPP field is
3 (the encoding of Machine) sets the mode to User, not Machine: the source
matches the MPP bits against 2 instead of 3. The pc is still set to mepc,
MPIE becomes 1 and MPP is cleared. -/
theorem mret_mpp3_yields_user :
    ∃ c', Cpu.execute cpuMret 0x30200073 = ExecOut.ok c' ∧
      c'.mode = Mode.User ∧
      c'.pc = 0x80000004 ∧
      Nat.land (c'.load_csr MSTATUS >>> 11) 0b11 = 0 ∧
      Nat.land (c'.load_csr MSTATUS >>> 7) 1 = 1 :=
  ⟨_, rfl, rfl, rfl, rfl, rfl⟩

/-- A 64-bit DRAM load either succeeds or panics; it never yields an
exception. -/
theorem dram_loadDev64_no_exc (d : Dram) (a : Nat) (e : Exception) :
    d.loadDev a 64 ≠ .error (.exc e) := by
  unfold Dram.loadDev Dram.load64
  simp only [show ((64 : Nat) = 8) = False by simp, show ((64 : Nat) = 16) = False by simp,
    show ((64 : Nat) = 32) = False by simp, show ((64 : Nat) = 64) = True by simp,
    if_true, if_false]
  split <;> simp


/-- A 64-bit bus load that fails with a guest exception fails with
`LoadAccessFault`. -/
theorem bus_load64_exc (b : Bus) (a : Nat) (e : Exception)
    (h : Bus.load b a 64 = .error (.exc e)) : e = .LoadAccessFault := by
  unfold Bus.load at h
  split_ifs at h
  · simp [Clint.loadDev] at h
  · simp [Plic.loadDev] at h
    exact h.symm
  · simp [Uart.loadDev] at h
    exact h.symm
  · simp [Virtio.loadDev] at h
    exact h.symm
  · cases hD : b.dram.loadDev a 64 with
    | ok v => rw [hD] at h; exact absurd h (by simp)
    | error e' =>
      rw [hD] at h
      simp only [Except.error.injEq] at h
      rw [h] at hD
      exact absurd hD (dram_loadDev64_no_exc b.dram a e)
  · simp only [Except.error.injEq, HostErr.exc.injEq] at h
    exact h.symm

/-- A page-walk iteration that fails with a guest exception fails either
with the page fault of the access type or with `LoadAccessFault` from the
PTE load. -/
theorem translateLoop_exc (vpn : Nat → Nat) (t : AccessType) (e : Exception) :
    ∀ (i : Nat) (b : Bus) (a : Nat),
      translateLoop vpn t b a i = .error (.exc e) →
      e = pageFault t ∨ e = .LoadAccessFault := by
  intro i
  induction i with
  | zero =>
    intro b a h
    unfold translateLoop at h
    cases hL : b.load (a + vpn 0 * 8) 64 with
    | error eh =>
      rw [hL] at h
      cases eh with
      | exc e' =>
        simp only [Except.error.injEq, HostErr.exc.injEq] at h
        exact Or.inr (h.symm.trans (bus_load64_exc b _ e' hL))
      | hostCrash => simp at h
    | ok pb =>
      obtain ⟨pte, b'⟩ := pb
      rw [hL] at h
      simp only at h
      split_ifs at h
      · simp only [Except.error.injEq, HostErr.exc.injEq] at h
        exact Or.inl h.symm
      · simp only [Except.error.injEq, HostErr.exc.injEq] at h
        exact Or.inl h.symm
  | succ i ih =>
    intro b a h
    unfold translateLoop at h
    cases hL : b.load (a + vpn (i + 1) * 8) 64 with
    | error eh =>
      rw [hL] at h
      cases eh with
      | exc e' =>
        simp only [Except.error.injEq, HostErr.exc.injEq] at h
        exact Or.inr (h.symm.trans (bus_load64_exc b _ e' hL))
      | hostCrash => simp at h
    | ok pb =>
      obtain ⟨pte, b'⟩ := pb
      rw [hL] at h
      simp only at h
      split_ifs at h
      · simp only [Except.error.injEq, HostErr.exc.injEq] at h
        exact Or.inl h.symm
      · exact ih b' _ h

/-- A translation that fails with a guest exception fails either with the
page fault of the access type or with `LoadAccessFault` from a PTE load. -/
theorem translate_exc (c : Cpu) (addr : Nat) (t : AccessType) (e : Exception)
    (h : c.translate addr t = .error (.exc e)) :
    e = pageFault t ∨ e = .LoadAccessFault := by
  unfold Cpu.translate at h
  split_ifs at h with hp
  simp only at h
  cases hT : translateLoop (fun i =>
      if i = 0 then Nat.land (addr >>> 12) 0x1ff
      else if i = 1 then Nat.land (addr >>> 21) 0x1ff
      else Nat.land (addr >>> 30) 0x1ff) t c.bus c.page_table 2 with
  | error eh =>
    rw [hT] at h
    cases eh with
    | exc e' =>
      simp only [Except.error.injEq, HostErr.exc.injEq] at h
      exact h ▸ translateLoop_exc _ t e' 2 c.bus c.page_table hT
    | hostCrash => simp at h
  | ok pib =>
    obtain ⟨pte, i, b'⟩ := pib
    rw [hT] at h
    simp only at h
    split_ifs at h
    simp only [Except.error.injEq, HostErr.exc.injEq] at h
    exact Or.inl h.symm

/-- C4 amended: every guest exception returned by `Cpu::fetch` is an
`InstructionPageFault` (from the Sv39 walk), an `InstructionAccessFault`
(remapped final 32-bit load) or a `LoadAccessFault` propagated unchanged
from a failed PTE load of the page walk. -/
theorem fetch_error_kinds (c : Cpu) (e : Exception)
    (h : c.fetch = .error (.exc e)) :
    e = .InstructionPageFault ∨ e = .InstructionAccessFault ∨ e = .LoadAccessFault := by
  unfold Cpu.fetch at h
  cases hT : c.translate c.pc .Instruction with
  | error eh =>
    rw [hT] at h
    cases eh with
    | exc e' =>
      simp only [Except.error.injEq, HostErr.exc.injEq] at h
      rcases translate_exc c c.pc .Instruction e' hT with h4 | h4
      · exact Or.inl (h.symm.trans h4)
      · exact Or.inr (Or.inr (h.symm.trans h4))
    | hostCrash => simp at h
  | ok pc' =>
    obtain ⟨p_pc, c'⟩ := pc'
    rw [hT] at h
    simp only at h
    cases hL : c'.bus.load p_pc 32 with
    | ok vb => rw [hL] at h; exact absurd h (by simp)
    | error eh =>
      cases eh with
      | exc e' =>
        rw [hL] at h
        simp only [Except.error.injEq, HostErr.exc.injEq] at h
        exact Or.inr (Or.inl h.symm)
      | hostCrash => rw [hL] at h; simp at h

/-- C4 counterexample: fetch returns `LoadAccessFault` (the raw PTE-load
error), which is neither of the two kinds the claim allows. -/
theorem fetch_can_return_load_access_fault :
    Cpu.fetch cpuPW = .error (.exc .LoadAccessFault) ∧
    Exception.LoadAccessFault ≠ .InstructionPageFault ∧
    Exception.LoadAccessFault ≠ .InstructionAccessFault :=
  ⟨rfl, by decide, by decide⟩

/-- Witness for `fetch_error_kinds` at the concrete state `cpuPW`. -/
theorem fetch_error_kinds_witness :
    Exception.LoadAccessFault = .InstructionPageFault ∨
    Exception.LoadAccessFault = .InstructionAccessFault ∨
    Exception.LoadAccessFault = .LoadAccessFault :=
  fetch_error_kinds cpuPW .LoadAccessFault rfl

/-- Mirrors `Nat.land` is the `&&&` of the bitwise simp lemmas. -/
theorem land_eq (a b : Nat) : Nat.land a b = a &&& b := rfl

/-- Mirrors `Nat.lor` is the `|||` of the bitwise simp lemmas. -/
theorem lor_eq (a b : Nat) : Nat.lor a b = a ||| b := rfl

/-- Mirrors `Nat.xor` is the `^^^` of the bitwise simp lemmas. -/
theorem xor_eq (a b : Nat) : Nat.xor a b = a ^^^ b := rfl

/-- Bit `i` of the 64-bit complement. -/
theorem testBit_not64 (a i : Nat) :
    (not64 a).testBit i = (a.testBit i ^^ decide (i < 64)) := by
  rw [not64, xor_eq, Nat.testBit_xor, Nat.testBit_two_pow_sub_one]

/-- C5: after `store_csr(SIE, v)`, reading `sie` returns `v & mideleg`, and
the bits of `mie` outside `mideleg` keep their previous values. -/
theorem sie_store_then_load (c : Cpu) (v : Nat)
    (hmie : c.csrs MIE < 2 ^ 64) (hmid : c.csrs MIDELEG < 2 ^ 64) :
    (c.store_csr SIE v).load_csr SIE = Nat.land v (c.csrs MIDELEG) ∧
    ∀ i, (c.csrs MIDELEG).testBit i = false →
      ((c.store_csr SIE v).csrs MIE).testBit i = (c.csrs MIE).testBit i := by
  have hMIE : (c.store_csr SIE v).csrs MIE =
      Nat.lor (Nat.land (c.csrs MIE) (not64 (c.csrs MIDELEG)))
        (Nat.land v (c.csrs MIDELEG)) := rfl
  have hMID : (c.store_csr SIE v).csrs MIDELEG = c.csrs MIDELEG := rfl
  constructor
  · rw [Cpu.load_csr, if_pos rfl, hMIE, hMID]
    apply Nat.eq_of_testBit_eq
    intro i
    by_cases hi : i < 64
    · cases hmd : (c.csrs MIDELEG).testBit i <;> cases hv : v.testBit i <;>
        cases hm : (c.csrs MIE).testBit i <;>
        simp [land_eq, lor_eq, testBit_not64, Nat.testBit_land, Nat.testBit_lor,
          hi, hmd, hv, hm]
    · have hmd : (c.csrs MIDELEG).testBit i = false :=
        Nat.testBit_lt_two_pow
          (lt_of_lt_of_le hmid (Nat.pow_le_pow_right (by norm_num) (le_of_not_lt hi)))
      simp [land_eq, Nat.testBit_land, hmd]
  · intro i hmd
    rw [hMIE]
    by_cases hi : i < 64
    · simp [land_eq, lor_eq, testBit_not64, Nat.testBit_land, Nat.testBit_lor, hi, hmd]
    · have hm : (c.csrs MIE).testBit i = false :=
        Nat.testBit_lt_two_pow
          (lt_of_lt_of_le hmie (Nat.pow_le_pow_right (by norm_num) (le_of_not_lt hi)))
      simp [land_eq, lor_eq, testBit_not64, Nat.testBit_land, Nat.testBit_lor,
        hi, hmd, hm]

/-- Witness for `sie_store_then_load` at mie = 0xab, mideleg = 0x3c, v = 0x55:
the read returns 0x55 & 0x3c = 0x14 and bit 7 of mie is preserved. -/
theorem sie_store_then_load_witness :
    (cpuSie.store_csr SIE 0x55).load_csr SIE = 0x14 ∧
    ((cpuSie.store_csr SIE 0x55).csrs MIE).testBit 7 = (cpuSie.csrs MIE).testBit 7 :=
  ⟨((sie_store_then_load cpuSie 0x55 (by decide) (by decide)).1).trans (by decide),
   (sie_store_then_load cpuSie 0x55 (by decide) (by decide)).2 7 (by decide)⟩

/-- C6: taking an exception in supervisor mode whose `medeleg` bit is clear
enters machine mode: the new mode is Machine, `pc = mtvec & ~1`,
`mepc = (prev_pc - 4) & ~1` (wrapping subtraction) and `mcause` is the
exception code. -/
theorem trap_s_mode_no_delegation (c : Cpu) (e : Exception)
    (hm : c.mode = Mode.Supervisor)
    (hd : Nat.land (wshr (c.load_csr MEDELEG) (e.exception_code % 2 ^ 32)) 1 = 0) :
    (e.take_trap c).mode = Mode.Machine ∧
    (e.take_trap c).pc = Nat.land (c.load_csr MTVEC) (not64 1) ∧
    (e.take_trap c).load_csr MEPC = Nat.land (wrapSub c.pc 4) (not64 1) ∧
    (e.take_trap c).load_csr MCAUSE = e.exception_code := by
  simp only [Exception.take_trap, takeTrapHelper, Bool.false_eq_true, if_false]
  split_ifs with h1 h2 h3
  · exact absurd hd h1.2
  · exact absurd hd h1.2
  · refine ⟨rfl, ?_, ?_, ?_⟩ <;>
      simp [Cpu.store_csr, Cpu.load_csr, updateFn, SIE, MSTATUS, MEPC, MCAUSE,
        MTVAL, MTVEC, MEDELEG, MIE, MIDELEG]
  · refine ⟨rfl, ?_, ?_, ?_⟩ <;>
      simp [Cpu.store_csr, Cpu.load_csr, updateFn, SIE, MSTATUS, MEPC, MCAUSE,
        MTVAL, MTVEC, MEDELEG, MIE, MIDELEG]

/-- Witness for `trap_s_mode_no_delegation`: a Breakpoint taken from
supervisor mode with medeleg = 0 lands in machine mode at mtvec & ~1 with
mepc = 0x80000004 and mcause = 3. -/
theorem trap_s_mode_no_delegation_witness :
    (Exception.Breakpoint.take_trap cpuTrapS).mode = Mode.Machine ∧
    (Exception.Breakpoint.take_trap cpuTrapS).pc = 0x80000100 ∧
    (Exception.Breakpoint.take_trap cpuTrapS).load_csr MEPC = 0x80000004 ∧
    (Exception.Breakpoint.take_trap cpuTrapS).load_csr MCAUSE = 3 := by
  obtain ⟨a, b, d, f⟩ :=
    trap_s_mode_no_delegation cpuTrapS .Breakpoint rfl (by decide)
  exact ⟨a, b.trans (by decide), d.trans (by decide), f⟩

/-- Mirrors `update_paging` applied to the satp address leaves the paging flag true
exactly when the stored satp mode field is 8, and recomputes the root. -/
theorem update_paging_satp (s2 : Cpu) :
    ((s2.update_paging SATP).enable_paging = true ↔
      (s2.update_paging SATP).csrs SATP >>> 60 = 8) ∧
    (s2.update_paging SATP).page_table =
      Nat.land ((s2.update_paging SATP).csrs SATP) ((1 <<< 44) - 1) * PAGE_SIZE := by
  unfold Cpu.update_paging
  rw [if_neg (by simp)]
  simp only [Cpu.load_csr, SATP, SIE]
  norm_num
  split_ifs with h8
  · simp [h8]
  · simp [h8]

set_option maxHeartbeats 2000000 in
/-- C7: after any CSR instruction (csrrw/csrrs/csrrc/csrrwi/csrrsi/csrrci)
whose target is satp, the paging flag is true exactly when the stored satp
mode field (bits 63:60) is 8, and the page-table root is
(satp & ((1<<44)-1)) * 4096. -/
theorem csr_satp_updates_paging (c : Cpu) (inst : Nat) (c' : Cpu)
    (hop : opcodeOf inst = 0x73)
    (hf3 : funct3Of inst = 0x1 ∨ funct3Of inst = 0x2 ∨ funct3Of inst = 0x3 ∨
      funct3Of inst = 0x5 ∨ funct3Of inst = 0x6 ∨ funct3Of inst = 0x7)
    (hcsr : csrAddrOf inst = SATP)
    (hex : Cpu.execute c inst = ExecOut.ok c') :
    (c'.enable_paging = true ↔ c'.csrs SATP >>> 60 = 8) ∧
    c'.page_table = Nat.land (c'.csrs SATP) ((1 <<< 44) - 1) * PAGE_SIZE := by
  simp only [Cpu.execute, executeMain] at hex
  rw [hop, hcsr] at hex
  rcases hf3 with h | h | h | h | h | h <;> rw [h] at hex <;> simp at hex <;>
    rw [← hex] <;> exact update_paging_satp _

/-- Witness for `csr_satp_updates_paging`: `csrrw x1, satp, x2` with
x2 = 8 << 60. -/
theorem csr_satp_updates_paging_witness :
    ∃ c', Cpu.execute cpuW7 0x180110F3 = ExecOut.ok c' ∧
      ((c'.enable_paging = true ↔ c'.csrs SATP >>> 60 = 8) ∧
        c'.page_table = Nat.land (c'.csrs SATP) ((1 <<< 44) - 1) * PAGE_SIZE) :=
  ⟨_, rfl, csr_satp_updates_paging cpuW7 0x180110F3 _ (by decide)
    (Or.inl (by decide)) (by decide) rfl⟩

/-- Zeroing x0 absorbs any earlier write to x0. -/
theorem updateFn_zero_absorb (r : Nat → Nat) (v : Nat) :
    updateFn (updateFn r 0 v) 0 0 = updateFn r 0 0 := by
  funext i
  unfold updateFn
  by_cases h : i = 0 <;> simp [h]

/-- C9: a write of any value v to register x0 is invisible to the next
executed instruction: execution from the written state coincides with
execution from the state in which x0 is 0, and in the dispatched state a
read of x0 yields 0. -/
theorem write_to_x0_invisible (c : Cpu) (inst v : Nat) :
    Cpu.execute { c with regs := updateFn c.regs 0 v } inst =
    Cpu.execute { c with regs := updateFn c.regs 0 0 } inst ∧
    ({ c with regs := updateFn c.regs 0 0 } : Cpu).regs 0 = 0 := by
  constructor
  · unfold Cpu.execute
    show executeMain { c with regs := updateFn (updateFn c.regs 0 v) 0 0 } inst =
        executeMain { c with regs := updateFn (updateFn c.regs 0 0) 0 0 } inst
    rw [updateFn_zero_absorb, updateFn_zero_absorb]
  · rfl

/-- A successful translation does not change the register file. -/
theorem translate_ok_regs (c : Cpu) (a : Nat) (t : AccessType) (p : Nat) (c1 : Cpu)
    (h : Cpu.translate c a t = .ok (p, c1)) : c1.regs = c.regs := by
  unfold Cpu.translate at h
  split_ifs at h with hp
  · simp only at h
    cases hT : translateLoop (fun i =>
        if i = 0 then Nat.land (a >>> 12) 0x1ff
        else if i = 1 then Nat.land (a >>> 21) 0x1ff
        else Nat.land (a >>> 30) 0x1ff) t c.bus c.page_table 2 with
    | error eh => rw [hT] at h; simp at h
    | ok pib =>
      obtain ⟨pte, i, b'⟩ := pib
      rw [hT] at h
      simp only at h
      split_ifs at h <;> simp only [Except.ok.injEq, Prod.mk.injEq] at h <;> rw [← h.2]
  · simp only [Except.ok.injEq, Prod.mk.injEq] at h
    rw [← h.2]

/-- A successful `Cpu::load` does not change the register file. -/
theorem load_ok_regs (c : Cpu) (a sz v : Nat) (c1 : Cpu)
    (h : Cpu.load c a sz = .ok (v, c1)) : c1.regs = c.regs := by
  unfold Cpu.load at h
  cases hT : Cpu.translate c a .Load with
  | error eh => rw [hT] at h; simp at h
  | ok pc' =>
    obtain ⟨p, cT⟩ := pc'
    rw [hT] at h
    simp only at h
    cases hL : cT.bus.load p sz with
    | error eh => rw [hL] at h; simp at h
    | ok vb =>
      obtain ⟨v2, b2⟩ := vb
      rw [hL] at h
      simp only [Except.ok.injEq, Prod.mk.injEq] at h
      rw [← h.2]
      exact translate_ok_regs c a .Load p cT hT

/-- In a load-then-store-then-write-rd sequence, an error from either memory
access returns a state whose register file is that of the entry state. -/
theorem ofLoad_ofStore_err (s : Cpu) (res : Except HostErr (Nat × Cpu))
    (hres : ∀ v c1, res = .ok (v, c1) → c1.regs = s.regs)
    (g : Nat → Cpu → Except HostErr Cpu) (k : Nat → Cpu → Cpu)
    (e : Exception) (c' : Cpu)
    (hex : ExecOut.ofLoad res s
      (fun t s1 => ExecOut.ofStore (g t s1) s1 (fun s2 => .ok (k t s2))) = .err e c') :
    c'.regs = s.regs := by
  cases res with
  | error eh =>
    cases eh with
    | exc e0 =>
      simp only [ExecOut.ofLoad, ExecOut.err.injEq] at hex
      rw [← hex.2]
    | hostCrash => simp [ExecOut.ofLoad] at hex
  | ok p =>
    obtain ⟨t, s1⟩ := p
    have h1 : s1.regs = s.regs := hres t s1 rfl
    simp only [ExecOut.ofLoad] at hex
    cases hG : g t s1 with
    | error eh =>
      cases eh with
      | exc e1 =>
        rw [hG] at hex
        simp only [ExecOut.ofStore, ExecOut.err.injEq] at hex
        rw [← hex.2, h1]
      | hostCrash => rw [hG] at hex; simp [ExecOut.ofStore] at hex
    | ok s2 => rw [hG] at hex; simp [ExecOut.ofStore] at hex

set_option maxHeartbeats 2000000 in
/-- C10: if an AMO instruction (amoadd.w/.d, amoswap.w/.d) returns an
exception from either of its two memory accesses, every register other than
the hardwired x0 retains its pre-instruction value; in particular rd is
written only after both accesses succeed. -/
theorem amo_error_preserves_regs (c : Cpu) (inst : Nat) (e : Exception) (c' : Cpu)
    (hop : opcodeOf inst = 0x2f)
    (h3 : funct3Of inst = 0x2 ∨ funct3Of inst = 0x3)
    (h5 : Nat.land (funct7Of inst) 0b1111100 >>> 2 = 0x00 ∨
      Nat.land (funct7Of inst) 0b1111100 >>> 2 = 0x01)
    (hex : Cpu.execute c inst = ExecOut.err e c') :
    ∀ r, r ≠ 0 → c'.regs r = c.regs r := by
  simp only [Cpu.execute, executeMain] at hex
  rw [hop] at hex
  have key : c'.regs = updateFn c.regs 0 0 := by
    rcases h3 with h3 | h3 <;> rcases h5 with h5 | h5 <;> rw [h3, h5] at hex <;>
      simp only [show ((0x2f : Nat) = 0x03) = False by simp,
        show ((0x2f : Nat) = 0x0f) = False by simp,
        show ((0x2f : Nat) = 0x13) = False by simp,
        show ((0x2f : Nat) = 0x17) = False by simp,
        show ((0x2f : Nat) = 0x1b) = False by simp,
        show ((0x2f : Nat) = 0x23) = False by simp,
        show ((0x2f : Nat) = 0x2f) = True by simp,
        show ((0x2 : Nat) = 0x3) = False by simp, show ((0x3 : Nat) = 0x2) = False by simp,
        show ((0x0 : Nat) = 0x1) = False by simp, show ((0x1 : Nat) = 0x0) = False by simp,
        if_true, if_false, and_true, and_false, true_and, false_and] at hex <;>
      exact ofLoad_ofStore_err _ _
        (fun v c1 hL => load_ok_regs _ _ _ v c1 hL) _ _ e c' hex
  intro r hr
  rw [key]
  simp [updateFn, hr]

/-- Witness for `amo_error_preserves_regs`: `amoadd.w x3, x2, (x1)` with
x1 = 0 faults on the load and x3 keeps its value. -/
theorem amo_error_preserves_regs_witness :
    ∃ e c', Cpu.execute cpuW10 0x0020a1af = ExecOut.err e c' ∧
      c'.regs 3 = cpuW10.regs 3 :=
  ⟨_, _, rfl, amo_error_preserves_regs cpuW10 0x0020a1af _ _ (by decide)
    (Or.inl (by decide)) (Or.inl (by decide)) rfl 3 (by decide)⟩

/-- C2: when fetch fails, the run loop of `main.rs` discards the fetch
exception instead of delivering it: fetch returns the fatal
`InstructionAccessFault`, yet the iteration executes instruction 0,
delivers `IllegalInstruction` (mcause 2, non-fatal) and continues the loop
instead of breaking. -/
theorem run_loop_discards_fetch_exception :
    Cpu.fetch cpuFF = .error (.exc .InstructionAccessFault) ∧
    Exception.InstructionAccessFault.is_fatal = true ∧
    ∃ c', loopStep cpuFF = StepOut.cont c' ∧
      c'.load_csr MCAUSE = Exception.IllegalInstruction.exception_code ∧
      Exception.IllegalInstruction.is_fatal = false :=
  ⟨rfl, rfl, ⟨_, rfl, rfl, rfl⟩⟩

/-- A successful bus load leaves the virtio device state unchanged. -/
theorem bus_load_preserves_virtio (b : Bus) (a s v : Nat) (b' : Bus)
    (h : Bus.load b a s = .ok (v, b')) : b'.virtio = b.virtio := by
  unfold Bus.load at h
  split_ifs at h
  · cases hD : b.clint.loadDev a s with
    | ok w =>
      rw [hD] at h
      simp only [Except.ok.injEq, Prod.mk.injEq] at h
      rw [← h.2]
    | error e => rw [hD] at h; simp at h
  · cases hD : b.plic.loadDev a s with
    | ok w =>
      rw [hD] at h
      simp only [Except.ok.injEq, Prod.mk.injEq] at h
      rw [← h.2]
    | error e => rw [hD] at h; simp at h
  · cases hD : b.uart.loadDev a s with
    | ok p =>
      obtain ⟨w, u'⟩ := p
      rw [hD] at h
      simp only [Except.ok.injEq, Prod.mk.injEq] at h
      rw [← h.2]
    | error e => rw [hD] at h; simp at h
  · cases hD : b.virtio.loadDev a s with
    | ok w =>
      rw [hD] at h
      simp only [Except.ok.injEq, Prod.mk.injEq] at h
      rw [← h.2]
    | error e => rw [hD] at h; simp at h
  · cases hD : b.dram.loadDev a s with
    | ok w =>
      rw [hD] at h
      simp only [Except.ok.injEq, Prod.mk.injEq] at h
      rw [← h.2]
    | error e => rw [hD] at h; simp at h

/-- Mirrors `Virtio::store32` never touches the internal id counter. -/
theorem virtio_store32_id (v : Virtio) (addr val : Nat) :
    (v.store32 addr val).id = v.id := by
  unfold Virtio.store32
  split_ifs <;> rfl

/-- A successful bus store leaves the virtio id counter unchanged. -/
theorem bus_store_preserves_virtio_id (b : Bus) (a s v : Nat) (b' : Bus)
    (h : Bus.store b a s v = .ok b') : b'.virtio.id = b.virtio.id := by
  unfold Bus.store at h
  split_ifs at h
  · cases hD : b.clint.storeDev a s v with
    | ok c' =>
      rw [hD] at h
      simp only [Except.ok.injEq] at h
      rw [← h]
    | error e => rw [hD] at h; simp at h
  · cases hD : b.plic.storeDev a s v with
    | ok p' =>
      rw [hD] at h
      simp only [Except.ok.injEq] at h
      rw [← h]
    | error e => rw [hD] at h; simp at h
  · cases hD : b.uart.storeDev a s v with
    | ok u' =>
      rw [hD] at h
      simp only [Except.ok.injEq] at h
      rw [← h]
    | error e => rw [hD] at h; simp at h
  · cases hD : b.virtio.storeDev a s v with
    | ok v' =>
      rw [hD] at h
      simp only [Except.ok.injEq] at h
      rw [← h]
      show v'.id = b.virtio.id
      unfold Virtio.storeDev at hD
      split_ifs at hD
      simp only [Except.ok.injEq] at hD
      rw [← hD]
      exact virtio_store32_id b.virtio a v
    | error e => rw [hD] at h; simp at h
  · cases hD : b.dram.storeDev a s v with
    | ok d' =>
      rw [hD] at h
      simp only [Except.ok.injEq] at h
      rw [← h]
    | error e => rw [hD] at h; simp at h

/-- Mirrors `Virtio::write_disk` never touches the internal id counter. -/
theorem write_disk_preserves_id (v : Virtio) (a d : Nat) (v' : Virtio)
    (h : Virtio.write_disk v a d = .ok v') : v'.id = v.id := by
  unfold Virtio.write_disk at h
  split_ifs at h
  simp only [Except.ok.injEq] at h
  rw [← h]

/-- The DRAM-to-disk transfer loop never touches the virtio id counter. -/
theorem diskWriteLoop_preserves_id (a1 sec : Nat) :
    ∀ (n : Nat) (cpu : Cpu) (i : Nat) (c1 : Cpu),
      diskWriteLoop a1 sec cpu i n = .ok c1 →
      c1.bus.virtio.id = cpu.bus.virtio.id := by
  intro n
  induction n with
  | zero =>
    intro cpu i c1 h
    unfold diskWriteLoop at h
    simp only [Except.ok.injEq] at h
    rw [← h]
  | succ n ih =>
    intro cpu i c1 h
    unfold diskWriteLoop at h
    cases hL : Bus.load cpu.bus (a1 + i) 8 with
    | error e => rw [hL] at h; simp at h
    | ok p =>
      obtain ⟨data, b'⟩ := p
      rw [hL] at h
      simp only at h
      cases hW : Virtio.write_disk b'.virtio (sec * 512 + i) data with
      | error e => rw [hW] at h; simp at h
      | ok v' =>
        rw [hW] at h
        simp only at h
        rw [ih { cpu with bus := { b' with virtio := v' } } (i + 1) c1 h]
        show v'.id = cpu.bus.virtio.id
        rw [write_disk_preserves_id b'.virtio _ data v' hW,
          bus_load_preserves_virtio cpu.bus (a1 + i) 8 data b' hL]

/-- The disk-to-DRAM transfer loop never touches the virtio id counter. -/
theorem diskReadLoop_preserves_id (a1 sec : Nat) :
    ∀ (n : Nat) (cpu : Cpu) (i : Nat) (c1 : Cpu),
      diskReadLoop a1 sec cpu i n = .ok c1 →
      c1.bus.virtio.id = cpu.bus.virtio.id := by
  intro n
  induction n with
  | zero =>
    intro cpu i c1 h
    unfold diskReadLoop at h
    simp only [Except.ok.injEq] at h
    rw [← h]
  | succ n ih =>
    intro cpu i c1 h
    unfold diskReadLoop at h
    cases hR : Virtio.read_disk cpu.bus.virtio (sec * 512 + i) with
    | error e => rw [hR] at h; simp at h
    | ok data =>
      rw [hR] at h
      simp only at h
      cases hS : Bus.store cpu.bus (a1 + i) 8 data with
      | error e => rw [hS] at h; simp at h
      | ok b' =>
        rw [hS] at h
        simp only at h
        rw [ih { cpu with bus := b' } (i + 1) c1 h]
        show b'.virtio.id = cpu.bus.virtio.id
        exact bus_store_preserves_virtio_id cpu.bus (a1 + i) 8 data b' hS

set_option maxHeartbeats 1000000 in
/-- C8 amended: a completed `disk_access` increments the internal id counter
first and then performs, as its final bus access, a 16-bit store of the
incremented id counter modulo 8 (not the head descriptor index) at
`used_addr + 2`, where `used_addr = queue_pfn * page_size + 4096`. -/
theorem disk_access_writes_incremented_id (c c' : Cpu)
    (h : Virtio.disk_access c = .ok c') :
    ∃ bmid : Bus, bmid.virtio.id = wrapAdd c.bus.virtio.id 1 ∧
      Bus.store bmid
        (wrapAdd (c.bus.virtio.queue_pfn * c.bus.virtio.page_size + 4096) 2) 16
        (wrapAdd c.bus.virtio.id 1 % 8) = .ok c'.bus := by
  unfold Virtio.disk_access at h
  simp only at h
  split at h
  · simp at h
  rename_i offset b1 hL1
  split at h
  · simp at h
  rename_i index b2 hL2
  split at h
  · simp at h
  rename_i addr0 b3 hL3
  split at h
  · simp at h
  rename_i next0 b4 hL4
  split at h
  · simp at h
  rename_i addr1 b5 hL5
  split at h
  · simp at h
  rename_i len1 b6 hL6
  split at h
  · simp at h
  rename_i flags1 b7 hL7
  split at h
  · simp at h
  rename_i blk b8 hL8
  split at h
  · simp at h
  rename_i cpu9 hT9
  have hv1 : b1.virtio = c.bus.virtio := bus_load_preserves_virtio _ _ _ _ _ hL1
  have hv2 : b2.virtio = b1.virtio := bus_load_preserves_virtio _ _ _ _ _ hL2
  have hv3 : b3.virtio = b2.virtio := bus_load_preserves_virtio _ _ _ _ _ hL3
  have hv4 : b4.virtio = b3.virtio := bus_load_preserves_virtio _ _ _ _ _ hL4
  have hv5 : b5.virtio = b4.virtio := bus_load_preserves_virtio _ _ _ _ _ hL5
  have hv6 : b6.virtio = b5.virtio := bus_load_preserves_virtio _ _ _ _ _ hL6
  have hv7 : b7.virtio = b6.virtio := bus_load_preserves_virtio _ _ _ _ _ hL7
  have hv8 : b8.virtio = c.bus.virtio := by
    rw [bus_load_preserves_virtio _ _ _ _ _ hL8, hv7, hv6, hv5, hv4, hv3, hv2, hv1]
  have hid9 : cpu9.bus.virtio.id = b8.virtio.id := by
    split_ifs at hT9
    · exact diskWriteLoop_preserves_id _ _ _ _ _ _ hT9
    · exact diskReadLoop_preserves_id _ _ _ _ _ _ hT9
  have hid : cpu9.bus.virtio.id = c.bus.virtio.id := by rw [hid9, hv8]
  simp only [Virtio.get_new_id] at h
  split at h
  · simp at h
  rename_i b' hS
  simp only [Except.ok.injEq] at h
  rw [hid] at hS
  refine ⟨{ cpu9.bus with
    virtio := { cpu9.bus.virtio with id := wrapAdd c.bus.virtio.id 1 } }, rfl, ?_⟩
  rw [← h]
  exact hS

/-- C8 counterexample: the head descriptor index read from the available
ring is 5, yet after `disk_access` the 16-bit field at `used_addr + 2`
(DRAM offset 0x1002) holds 1, the incremented id counter modulo 8, and
1 ≠ 5 % 8. -/
theorem disk_access_used_id_neq_head_index :
    Bus.load cpuC8.bus 0x80000042 16 = .ok (5, cpuC8.bus) ∧
    ∃ c', Virtio.disk_access cpuC8 = .ok c' ∧
      c'.bus.dram.mem 0x1002 = 1 ∧ c'.bus.dram.mem 0x1003 = 0 ∧ (1 : Nat) ≠ 5 % 8 :=
  ⟨rfl, ⟨_, rfl, rfl, rfl, by decide⟩⟩

/-- Witness for `disk_access_writes_incremented_id` at the concrete state
`cpuC8`. -/
theorem disk_access_writes_incremented_id_witness :
    ∃ c', Virtio.disk_access cpuC8 = .ok c' ∧
      ∃ bmid : Bus, bmid.virtio.id = wrapAdd cpuC8.bus.virtio.id 1 ∧
        Bus.store bmid
          (wrapAdd (cpuC8.bus.virtio.queue_pfn * cpuC8.bus.virtio.page_size + 4096) 2) 16
          (wrapAdd cpuC8.bus.virtio.id 1 % 8) = .ok c'.bus :=
  ⟨_, rfl, disk_access_writes_incremented_id cpuC8 _ rfl⟩
